import Mathlib

/-!
Verification of the aviation-incident data API: a shallow embedding of the
query layer (source-table union, filter construction, aggregation) and the
human-evaluation submit protocol, with theorems checking the specification's
claims against the embedded code.

Conventions of the embedding:
* SQL `DATE` values are triples of naturals compared lexicographically.
* Nullable SQL columns are `Option` values; SQL three-valued comparisons
  against `NULL` evaluate to not-true, i.e. the row is excluded.
* Python truthiness of an optional list parameter (`if operators:`) is
  `isGiven`: absent or empty means the filter is not applied.
* The three source tables are lists of rows; `UNION ALL` is concatenation.
-/

namespace DataApi

/-! ### Calendar model: `datetime.date` and `calendar.monthrange` -/

/-- A calendar date as stored in a SQL `DATE` column. -/
structure Date where
  year : Nat
  month : Nat
  day : Nat
deriving DecidableEq, Repr

/-- Python `calendar.isleap`. -/
def isleap (y : Nat) : Bool :=
  y % 4 == 0 && (y % 100 != 0 || y % 400 == 0)

/-- Python `calendar.mdays`: day counts per month, index 0 unused, February listed as 28. -/
def mdays : List Nat := [0, 31, 28, 31, 30, 31, 30, 31, 31, 30, 31, 30, 31]

/-- Number of days in a month, with the leap-year adjustment for February
(the second component of `calendar.monthrange`). -/
def daysInMonth (y m : Nat) : Nat :=
  mdays.getD m 0 + (if m == 2 && isleap y then 1 else 0)

/-- Python `calendar.monthrange` last-day component: raises (`none`) when the
month is outside 1..12. -/
def monthrangeDays (y m : Nat) : Option Nat :=
  if 1 ≤ m ∧ m ≤ 12 then some (daysInMonth y m) else none

/-- The Python `datetime.date` constructor: `none` models the `ValueError`
raised on a year outside 1..9999, a month outside 1..12 or a day outside the
month's length. -/
def pyDate (y m d : Nat) : Option Date :=
  if 1 ≤ y ∧ y ≤ 9999 ∧ 1 ≤ m ∧ m ≤ 12 ∧ 1 ≤ d ∧ d ≤ daysInMonth y m then
    some ⟨y, m, d⟩
  else none

/-- SQL comparison `a <= b` on `DATE` values: lexicographic on year, month, day. -/
def dateLe (a b : Date) : Bool :=
  a.year < b.year ||
    (a.year == b.year && (a.month < b.month || (a.month == b.month && a.day ≤ b.day)))

/-! ### Period parameters (`start_period` / `end_period`)

Every query endpoint declares the period parameters as
`Query(default=None, regex=r"^\d{4}-\d{2}$")`; a supplied value that fails the
regex is rejected by the framework with a 422 client error before the handler
body runs.  Inside the handler the value is split on `-` and fed to
`date(year, month, 1)` (for `start_period`) or to `calendar.monthrange` and
`date(year, month, last_day)` (for `end_period`); exceptions raised there are
not caught and surface as a server error. -/

/-- The regex character class `\d`: a decimal digit. -/
def isDigitChar (c : Char) : Bool :=
  48 ≤ c.toNat && c.toNat ≤ 57

/-- The shape test of the regex `^\d{4}-\d{2}$`. -/
def periodShapeValid (s : String) : Bool :=
  match s.toList with
  | [y1, y2, y3, y4, sep, m1, m2] =>
      isDigitChar y1 && isDigitChar y2 && isDigitChar y3 && isDigitChar y4 &&
        sep == '-' && isDigitChar m1 && isDigitChar m2
  | _ => false

/-- Decimal value of a digit string, as Python `int` on a digit-only string. -/
def digitsToNat (cs : List Char) : Nat :=
  cs.foldl (fun n c => 10 * n + (c.toNat - 48)) 0

/-- The year component `int(s.split('-')[0])` of a shape-valid period. -/
def periodYear (s : String) : Nat :=
  digitsToNat (s.toList.take 4)

/-- The month component `int(s.split('-')[1])` of a shape-valid period. -/
def periodMonth (s : String) : Nat :=
  digitsToNat (s.toList.drop 5)

/-- Outcome of processing one supplied period parameter. -/
inductive PeriodOutcome where
  | clientError
  | serverError
  | ok (d : Date)
deriving DecidableEq, Repr

/-- Processing of a supplied `start_period` value: regex validation by the
framework, then `year, month = map(int, start_period.split('-'))` and
`date(year, month, 1)` in the handler. -/
def processStartPeriod (s : String) : PeriodOutcome :=
  if periodShapeValid s then
    match pyDate (periodYear s) (periodMonth s) 1 with
    | some d => .ok d
    | none => .serverError
  else .clientError

/-- Processing of a supplied `end_period` value: regex validation, then
`_, last_day = calendar.monthrange(year, month)` and
`date(year, month, last_day)`. -/
def processEndPeriod (s : String) : PeriodOutcome :=
  if periodShapeValid s then
    match monthrangeDays (periodYear s) (periodMonth s) with
    | some lastDay =>
        match pyDate (periodYear s) (periodMonth s) lastDay with
        | some d => .ok d
        | none => .serverError
    | none => .serverError
  else .clientError

/-! ### Source tables

Row shapes follow the schemas created in `test_api.py` (the raw text date
column is never consumed by any endpoint and is carried as an opaque string). -/

/-- A row of `asn_scraped_accidents`. -/
structure AsnRow where
  uid : Option String
  narrative : Option String
  date : Option String
  sanitized_date : Option Date
  phase : Option String
  aircraft_type : Option String
  location : Option String
  operator : Option String
deriving DecidableEq, Repr

/-- A row of `asrs_records`. -/
structure AsrsRow where
  uid : Option String
  synopsis : Option String
  time : Option String
  sanitized_date : Option Date
  phase : Option String
  aircraft_type : Option String
  place : Option String
  operator : Option String
deriving DecidableEq, Repr

/-- A row of `pci_scraped_accidents` (no phase column). -/
structure PciRow where
  uid : Option String
  summary : Option String
  date : Option String
  sanitized_date : Option Date
  aircraft_type : Option String
  location : Option String
  operator : Option String
deriving DecidableEq, Repr

/-- A row of `classification_results` (only the columns the modelled
endpoints read). -/
structure ClassificationResult where
  id : Int
  source_uid : Option String
  final_category : Option String
deriving DecidableEq, Repr

/-- The relational store as seen by the read endpoints. -/
structure IncidentDB where
  asn : List AsnRow
  asrs : List AsrsRow
  pci : List PciRow
  classification_results : List ClassificationResult
deriving DecidableEq, Repr

/-! ### Filter parameters -/

/-- Python truthiness of an optional list parameter: `if operators:` is false
for both `None` and `[]`. -/
def isGiven : Option (List String) → Bool
  | some l => !l.isEmpty
  | none => false

/-- SQL `col IN :vals` against a nullable column: a `NULL` value never
matches.  Applied only when the parameter is given. -/
def listFilterPasses (f : Option (List String)) (v : Option String) : Bool :=
  if isGiven f then
    match v with
    | some x => (f.getD []).contains x
    | none => false
  else true

/-- SQL `origin_date >= :start_date` against a nullable date column, applied
only when `start_period` was supplied (and already expanded to a date). -/
def startDatePasses (startDate : Option Date) (d : Option Date) : Bool :=
  match startDate with
  | some sd =>
      match d with
      | some dv => dateLe sd dv
      | none => false
  | none => true

/-- SQL `origin_date <= :end_date` against a nullable date column, applied
only when `end_period` was supplied (and already expanded to a date). -/
def endDatePasses (endDate : Option Date) (d : Option Date) : Bool :=
  match endDate with
  | some ed =>
      match d with
      | some dv => dateLe dv ed
      | none => false
  | none => true

/-- The common optional filter set of the query endpoints, with the period
bounds already expanded to dates by the handler prologue. -/
structure QueryFilters where
  operators : Option (List String)
  phases : Option (List String)
  aircraft_types : Option (List String)
  locations : Option (List String)
  startDate : Option Date
  endDate : Option Date
deriving DecidableEq, Repr

/-- A request with every optional filter absent. -/
def noFilters : QueryFilters := ⟨none, none, none, none, none, none⟩

/-! ### The unioned `all_incidents` view (`UNION ALL` of the three sources)

Shape used by `GET /aggregates/statistics` and `GET /reports/uids_by_filter`:
`uid, sanitized_date, operator, phase, aircraft_type, location`, with the
`pci` source contributing `NULL AS phase` and the `asrs` source contributing
`place AS location`. -/

/-- One normalized row of the unioned view. -/
structure StatsIncident where
  uid : Option String
  sanitized_date : Option Date
  operator : Option String
  phase : Option String
  aircraft_type : Option String
  location : Option String
deriving DecidableEq, Repr

/-- Projection of an `asn_scraped_accidents` row into the unioned view. -/
def statsFromAsn (r : AsnRow) : StatsIncident :=
  ⟨r.uid, r.sanitized_date, r.operator, r.phase, r.aircraft_type, r.location⟩

/-- Projection of an `asrs_records` row into the unioned view
(`place AS location`). -/
def statsFromAsrs (r : AsrsRow) : StatsIncident :=
  ⟨r.uid, r.sanitized_date, r.operator, r.phase, r.aircraft_type, r.place⟩

/-- Projection of a `pci_scraped_accidents` row into the unioned view
(`NULL AS phase`). -/
def statsFromPci (r : PciRow) : StatsIncident :=
  ⟨r.uid, r.sanitized_date, r.operator, none, r.aircraft_type, r.location⟩

/-- The `WITH all_incidents AS (... UNION ALL ... UNION ALL ...)` view: plain
concatenation of the three projected source tables. -/
def allIncidentsStats (db : IncidentDB) : List StatsIncident :=
  db.asn.map statsFromAsn ++ db.asrs.map statsFromAsrs ++ db.pci.map statsFromPci

/-- The `WHERE` predicate of `GET /aggregates/statistics`:
`uid IS NOT NULL` plus the optional common filters. -/
def statsWhere (f : QueryFilters) (r : StatsIncident) : Bool :=
  r.uid.isSome &&
    listFilterPasses f.operators r.operator &&
    listFilterPasses f.phases r.phase &&
    listFilterPasses f.aircraft_types r.aircraft_type &&
    listFilterPasses f.locations r.location &&
    startDatePasses f.startDate r.sanitized_date &&
    endDatePasses f.endDate r.sanitized_date

/-- The `SELECT COUNT(*) ... FROM all_incidents WHERE ...` of
`GET /aggregates/statistics`. -/
def getStatisticsTotal (db : IncidentDB) (f : QueryFilters) : Nat :=
  (allIncidentsStats db).countP (fun r => statsWhere f r)

/-! ### Human evaluation protocol (`POST /human_evaluation/submit`) -/

/-- A row of `evaluation_assignments`. -/
structure EvaluationAssignment where
  assignment_id : Nat
  classification_result_id : Int
  evaluator_id : String
  is_complete : Bool
  completed_at : Option Nat
deriving DecidableEq, Repr

/-- A row of `human_evaluation`. -/
structure HumanEvaluation where
  classification_result_id : Int
  evaluator_id : String
  human_category : String
  human_confidence : Rat
  human_reasoning : String
  created_at : Nat
deriving DecidableEq, Repr

/-- The request body of `POST /human_evaluation/submit`. -/
structure HumanEvaluationRequest where
  classification_result_id : Int
  evaluator_id : String
  human_category : String
  human_confidence : Rat
  human_reasoning : String
deriving DecidableEq, Repr

/-- The two tables touched by the submit endpoint. -/
structure EvalDB where
  assignments : List EvaluationAssignment
  evaluations : List HumanEvaluation
deriving DecidableEq, Repr

/-- Outcome of the submit endpoint: the structured success payload or the
structured "Assignment not found or already complete." error payload. -/
inductive SubmitOutcome where
  | success
  | notFoundOrComplete
deriving DecidableEq, Repr

/-- The existence check
`SELECT assignment_id FROM evaluation_assignments WHERE classification_result_id = :c_id AND evaluator_id = :e_id AND is_complete = FALSE`
followed by `result.first() is None`. -/
def incompleteAssignmentExists (db : EvalDB) (cid : Int) (eid : String) : Bool :=
  db.assignments.any fun a =>
    a.classification_result_id == cid && a.evaluator_id == eid && a.is_complete == false

/-- The submit transaction: if no incomplete assignment matches the pair,
return the error payload without touching the store; otherwise insert the
`human_evaluation` row and set `is_complete = TRUE, completed_at = now` on
every assignment row of the pair, committing both writes together. -/
def submitHumanEvaluation (db : EvalDB) (req : HumanEvaluationRequest) (nowTs : Nat) :
    SubmitOutcome × EvalDB :=
  if incompleteAssignmentExists db req.classification_result_id req.evaluator_id then
    let inserted := db.evaluations ++
      [⟨req.classification_result_id, req.evaluator_id, req.human_category,
        req.human_confidence, req.human_reasoning, nowTs⟩]
    let updated := db.assignments.map fun a =>
      if a.classification_result_id == req.classification_result_id &&
          a.evaluator_id == req.evaluator_id then
        { a with is_complete := true, completed_at := some nowTs }
      else a
    (.success, ⟨updated, inserted⟩)
  else
    (.notFoundOrComplete, db)

/-- Number of `human_evaluation` rows recorded for a pair. -/
def evalCount (db : EvalDB) (cid : Int) (eid : String) : Nat :=
  db.evaluations.countP fun e =>
    e.classification_result_id == cid && e.evaluator_id == eid

/-- Sequential composition of submit calls (each request with its server
timestamp), keeping only the final store. -/
def runSubmits (db : EvalDB) (reqs : List (HumanEvaluationRequest × Nat)) : EvalDB :=
  reqs.foldl (fun s rt => (submitHumanEvaluation s rt.1 rt.2).2) db

/-! ### Seasonal distribution (`GET /aggregates/seasonal-distribution`) -/

/-- The date-only unioned view of the seasonal query
(`SELECT sanitized_date AS origin_date FROM ... UNION ALL ...`). -/
def seasonalDates (db : IncidentDB) : List (Option Date) :=
  db.asn.map (·.sanitized_date) ++ db.asrs.map (·.sanitized_date) ++
    db.pci.map (·.sanitized_date)

/-- The dates surviving the seasonal `WHERE`: `origin_date IS NOT NULL` plus
the optional `EXTRACT(YEAR ...) >= :start_year` / `<= :end_year` bounds. -/
def seasonalFilteredDates (db : IncidentDB) (startYear endYear : Option Int) : List Date :=
  ((seasonalDates db).filterMap id).filter fun d =>
    (match startYear with
     | some sy => decide (sy ≤ (d.year : Int))
     | none => true) &&
    (match endYear with
     | some ey => decide ((d.year : Int) ≤ ey)
     | none => true)

/-- One row of the seasonal `GROUP BY year, month` result. -/
structure SeasonalRow where
  year : Int
  month : Nat
  count : Nat
deriving DecidableEq, Repr

/-- Grouping of a date list by `(year, month)` with `COUNT(*)`, one row per
distinct pair. -/
def seasonalGroupRowsOf (ds : List Date) : List SeasonalRow :=
  (ds.map (fun d => ((d.year : Int), d.month))).dedup.map fun p =>
    ⟨p.1, p.2, ds.countP fun d => ((d.year : Int) == p.1) && (d.month == p.2)⟩

/-- The grouped query result of the seasonal endpoint. -/
def seasonalGroupRows (db : IncidentDB) (startYear endYear : Option Int) : List SeasonalRow :=
  seasonalGroupRowsOf (seasonalFilteredDates db startYear endYear)

/-- Python `data_map.get((year, month_num), 0)` over the grouped rows. -/
def dataMapGet (rows : List SeasonalRow) (y : Int) (m : Nat) : Nat :=
  match rows.find? (fun r => (r.year == y) && (r.month == m)) with
  | some r => r.count
  | none => 0

/-- One `{"x": month_abbr, "y": str(year), "v": count}` entry of the seasonal
response. -/
structure SeasonalEntry where
  x : String
  y : String
  v : Nat
deriving DecidableEq, Repr

/-- Python `calendar.month_abbr[m]` for the twelve real months. -/
def monthAbbr : Nat → String
  | 1 => "Jan"
  | 2 => "Feb"
  | 3 => "Mar"
  | 4 => "Apr"
  | 5 => "May"
  | 6 => "Jun"
  | 7 => "Jul"
  | 8 => "Aug"
  | 9 => "Sep"
  | 10 => "Oct"
  | 11 => "Nov"
  | 12 => "Dec"
  | _ => ""

/-- Python `range(a, b + 1)` over integers. -/
def intRangeIncl (a b : Int) : List Int :=
  (List.range (b + 1 - a).toNat).map fun i => a + Int.ofNat i

/-- The seasonal-distribution handler: run the grouped query, compute the
effective year bounds (supplied value, else min/max year among the grouped
rows, else `None`), and either return `[]` or build the dense zero-filled
year-by-month grid from `data_map`. -/
def getSeasonalDistribution (db : IncidentDB) (startYear endYear : Option Int) :
    List SeasonalEntry :=
  let rows := seasonalGroupRows db startYear endYear
  let effStart := match startYear with
    | some s => some s
    | none => (rows.map (·.year)).min?
  let effEnd := match endYear with
    | some e => some e
    | none => (rows.map (·.year)).max?
  match effStart, effEnd with
  | some a, some b =>
      (intRangeIncl a b).flatMap fun yr =>
        (List.range 12).map fun i =>
          ⟨monthAbbr (i + 1), toString yr, dataMapGet rows yr (i + 1)⟩
  | _, _ => []

/-! ### Single-record lookup (`GET /record/{uid}`) -/

/-- The canonical normalized record shape of the spec's data model. -/
structure NormalizedRecord where
  uid : Option String
  origin_date : Option Date
  phase : Option String
  aircraft_type : Option String
  location : Option String
  operator : Option String
  narrative : Option String
deriving DecidableEq, Repr

/-- Normalization of an `asn_scraped_accidents` row. -/
def normalizeAsn (r : AsnRow) : NormalizedRecord :=
  ⟨r.uid, r.sanitized_date, r.phase, r.aircraft_type, r.location, r.operator, r.narrative⟩

/-- Normalization of an `asrs_records` row (`place` is the location,
`synopsis` is the narrative). -/
def normalizeAsrs (r : AsrsRow) : NormalizedRecord :=
  ⟨r.uid, r.sanitized_date, r.phase, r.aircraft_type, r.place, r.operator, r.synopsis⟩

/-- Normalization of a `pci_scraped_accidents` row (no phase, `summary` is
the narrative). -/
def normalizePci (r : PciRow) : NormalizedRecord :=
  ⟨r.uid, r.sanitized_date, none, r.aircraft_type, r.location, r.operator, r.summary⟩

/-- The source tag of a UID: the part before the first underscore. -/
def uidSourceTag (uid : String) : String :=
  String.mk (uid.toList.takeWhile (· ≠ '_'))

/-- Result of the single-record lookup. -/
inductive LookupResult where
  | found (r : NormalizedRecord)
  | notFound
  | clientError
deriving DecidableEq, Repr

/-- Modelled from the spec: the `GET /record/{uid}` handler is not present
under `src/` (only the spec describes it).  Per the spec, the part of the UID
before the first underscore selects the source table (`asn` → accidents
table, `asrs` → safety-report table, `pci` → third incident table; any other
value is a client error), and the endpoint returns the normalized record for
that UID from the designated table, or a not-found signal when no row of that
table carries the UID. -/
def lookupRecord (db : IncidentDB) (uid : String) : LookupResult :=
  if uidSourceTag uid == "asn" then
    match db.asn.find? (fun r => r.uid == some uid) with
    | some r => .found (normalizeAsn r)
    | none => .notFound
  else if uidSourceTag uid == "asrs" then
    match db.asrs.find? (fun r => r.uid == some uid) with
    | some r => .found (normalizeAsrs r)
    | none => .notFound
  else if uidSourceTag uid == "pci" then
    match db.pci.find? (fun r => r.uid == some uid) with
    | some r => .found (normalizePci r)
    | none => .notFound
  else
    .clientError

/-! ### Top-N aggregation (`GET /aggregates/top-n`) -/

/-- The allow-listed grouping dimension (the FastAPI `Literal` values). -/
inductive TopNCategory where
  | operator
  | aircraft_type
  | phase
  | final_category
  | location
deriving DecidableEq, Repr

/-- One row of the top-n endpoint's `all_incidents` CTE; `final_category` is
populated only by the classification-join variant of the CTE. -/
structure TopNRow where
  final_category : Option String
  origin_date : Option Date
  operator : Option String
  phase : Option String
  aircraft_type : Option String
  location : Option String
deriving DecidableEq, Repr

/-- SQL equality `a = b` between two nullable text columns: `NULL` matches
nothing. -/
def sqlEq (a b : Option String) : Bool :=
  match a, b with
  | some x, some y => x == y
  | _, _ => false

/-- The plain (no-join) `all_incidents` CTE of the top-n endpoint. -/
def topNBaseRows (db : IncidentDB) : List TopNRow :=
  db.asn.map (fun r => ⟨none, r.sanitized_date, r.operator, r.phase, r.aircraft_type, r.location⟩) ++
    db.asrs.map (fun r => ⟨none, r.sanitized_date, r.operator, r.phase, r.aircraft_type, r.place⟩) ++
    db.pci.map (fun r => ⟨none, r.sanitized_date, r.operator, none, r.aircraft_type, r.location⟩)

/-- The classification-join `all_incidents` CTE of the top-n endpoint:
`classification_results cr JOIN <source> origin ON cr.source_uid = origin.uid`
for each source, concatenated with `UNION ALL`. -/
def topNJoinRows (db : IncidentDB) : List TopNRow :=
  (db.classification_results.flatMap fun cr =>
      (db.asn.filter (fun o => sqlEq cr.source_uid o.uid)).map fun o =>
        ⟨cr.final_category, o.sanitized_date, o.operator, o.phase, o.aircraft_type, o.location⟩) ++
    (db.classification_results.flatMap fun cr =>
      (db.asrs.filter (fun o => sqlEq cr.source_uid o.uid)).map fun o =>
        ⟨cr.final_category, o.sanitized_date, o.operator, o.phase, o.aircraft_type, o.place⟩) ++
    (db.classification_results.flatMap fun cr =>
      (db.pci.filter (fun o => sqlEq cr.source_uid o.uid)).map fun o =>
        ⟨cr.final_category, o.sanitized_date, o.operator, none, o.aircraft_type, o.location⟩)

/-- The column selected by the validated `category` parameter (the
`category_map` allow-list). -/
def categoryColumn : TopNCategory → TopNRow → Option String
  | .operator => fun r => r.operator
  | .aircraft_type => fun r => r.aircraft_type
  | .phase => fun r => r.phase
  | .final_category => fun r => r.final_category
  | .location => fun r => r.location

/-- The top-n `WHERE` predicate:
`{col} IS NOT NULL AND {col} != ''` plus the optional common filters. -/
def topNWhere (cat : TopNCategory) (f : QueryFilters) (r : TopNRow) : Bool :=
  (match categoryColumn cat r with
   | some v => v != ""
   | none => false) &&
    listFilterPasses f.operators r.operator &&
    listFilterPasses f.phases r.phase &&
    listFilterPasses f.aircraft_types r.aircraft_type &&
    listFilterPasses f.locations r.location &&
    startDatePasses f.startDate r.origin_date &&
    endDatePasses f.endDate r.origin_date

/-- The grouping-column values of the rows surviving the top-n filter. -/
def topNFilteredValues (db : IncidentDB) (cat : TopNCategory) (f : QueryFilters) :
    List String :=
  let rows := if cat == .final_category then topNJoinRows db else topNBaseRows db
  (rows.filter (topNWhere cat f)).filterMap (categoryColumn cat)

/-- `GROUP BY {col}` with `COUNT(*)`: one `(value, count)` pair per distinct
value. -/
def groupCounts (vals : List String) : List (String × Nat) :=
  vals.dedup.map fun v => (v, vals.count v)

/-- The top-n endpoint: group, `ORDER BY incident_count DESC`, `LIMIT :n`. -/
def getTopN (db : IncidentDB) (cat : TopNCategory) (f : QueryFilters) (n : Nat) :
    List (String × Nat) :=
  (((groupCounts (topNFilteredValues db cat f)).mergeSort
      fun a b => decide (b.2 ≤ a.2)).take n)

/-! ### UID report (`GET /reports/uids_by_filter`)

`reports.py` imports only `text` from sqlalchemy; the branches that attach
expanding bind parameters call the unimported name `bindparam`, so any
request supplying a non-empty list filter raises `NameError` before the query
runs — an unhandled exception, surfaced as a server error. -/

/-- Result of the report endpoint: the UID list, or the unhandled exception
path. -/
inductive ReportResult where
  | serverError
  | ok (uids : List String)
deriving DecidableEq, Repr

/-- The report `WHERE` predicate on the no-list-filter path:
`uid IS NOT NULL` plus the optional period bounds. -/
def reportWhere (startDate endDate : Option Date) (r : StatsIncident) : Bool :=
  r.uid.isSome &&
    startDatePasses startDate r.sanitized_date &&
    endDatePasses endDate r.sanitized_date

/-- Comparator of `ORDER BY origin_date DESC` (PostgreSQL puts `NULL`s first
on a descending sort): `a` may precede `b`. -/
def reportOrderBefore (a b : StatsIncident) : Bool :=
  match a.sanitized_date, b.sanitized_date with
  | none, _ => true
  | some _, none => false
  | some x, some y => dateLe y x

/-- The `GET /reports/uids_by_filter` handler: build the query, then — if any
list filter was supplied — hit the `bindparam` `NameError`; otherwise execute
the unioned query and return the UID column ordered by date descending. -/
def getUidsByFilter (db : IncidentDB)
    (operators locations phases aircraft_types : Option (List String))
    (startDate endDate : Option Date) : ReportResult :=
  if isGiven operators || isGiven locations || isGiven phases ||
      isGiven aircraft_types then
    .serverError
  else
    .ok ((((allIncidentsStats db).filter (reportWhere startDate endDate)).mergeSort
        reportOrderBefore).filterMap (·.uid))

/-! ### SQL text construction

The exact SQL strings the handlers send, as functions of the request: filter
values enter only the bound-parameter dictionary, while the text varies only
with which filters are supplied and with the allow-listed identifier
choices. -/

/-- Python truthiness of an optional string parameter. -/
def isGivenStr : Option String → Bool
  | some s => !s.isEmpty
  | none => false

/-- A single-quote character for embedding in SQL text. -/
def sq : String := String.singleton (Char.ofNat 39)

/-- The validated `period` parameter of `GET /aggregates/over-time`. -/
inductive PeriodGranularity where
  | year
  | month
deriving DecidableEq, Repr

/-- The `WHERE` clause fragments of `GET /aggregates/over-time`, in the order
the handler appends them (this endpoint accepts `locations` but never builds
a clause from it). -/
def overTimeWhereClauses (operators phases aircraft_types : Option (List String))
    (start_period end_period : Option String) : List String :=
  ["origin_date IS NOT NULL"] ++
    (if isGiven operators then ["operator IN :operators"] else []) ++
    (if isGiven phases then ["phase IN :phases"] else []) ++
    (if isGiven aircraft_types then ["aircraft_type IN :aircraft_types"] else []) ++
    (if isGivenStr start_period then ["origin_date >= :start_date"] else []) ++
    (if isGivenStr end_period then ["origin_date <= :end_date"] else [])

/-- The SQL text of `GET /aggregates/over-time`. -/
def overTimeSQL (p : PeriodGranularity)
    (operators phases aircraft_types : Option (List String))
    (start_period end_period : Option String) : String :=
  let dateTrunc := match p with
    | .year => "EXTRACT(YEAR FROM origin_date)"
    | .month => "TO_CHAR(origin_date, " ++ sq ++ "YYYY-MM" ++ sq ++ ")"
  let whereSql := String.intercalate " AND "
    (overTimeWhereClauses operators phases aircraft_types start_period end_period)
  "\n        WITH all_incidents AS (\n" ++
    "            SELECT sanitized_date AS origin_date, operator, phase, aircraft_type\n" ++
    "            FROM public.asn_scraped_accidents\n" ++
    "            UNION ALL\n" ++
    "            SELECT sanitized_date AS origin_date, operator, phase, aircraft_type\n" ++
    "            FROM public.asrs_records\n" ++
    "            UNION ALL\n" ++
    "            SELECT sanitized_date AS origin_date, operator, NULL AS phase, aircraft_type\n" ++
    "            FROM public.pci_scraped_accidents\n" ++
    "        )\n" ++
    "        SELECT\n" ++
    "            " ++ dateTrunc ++ " AS period_start,\n" ++
    "            COUNT(*) AS incident_count\n" ++
    "        FROM all_incidents\n" ++
    "        WHERE " ++ whereSql ++ "\n" ++
    "        GROUP BY period_start\n" ++
    "        ORDER BY period_start;\n    "

/-- The `category_map` resolution of the validated `category` parameter to a
column identifier. -/
def categoryColName : TopNCategory → String
  | .operator => "operator"
  | .aircraft_type => "aircraft_type"
  | .phase => "phase"
  | .final_category => "final_category"
  | .location => "location"

/-- The `WHERE` clause fragments of `GET /aggregates/top-n`, in the order the
handler appends them. -/
def topNWhereClauses (cat : TopNCategory)
    (operators phases aircraft_types locations : Option (List String))
    (start_period end_period : Option String) : List String :=
  [categoryColName cat ++ " IS NOT NULL", categoryColName cat ++ " != " ++ sq ++ sq] ++
    (if isGiven operators then ["operator IN :operators"] else []) ++
    (if isGiven phases then ["phase IN :phases"] else []) ++
    (if isGiven aircraft_types then ["aircraft_type IN :aircraft_types"] else []) ++
    (if isGiven locations then ["location IN :locations"] else []) ++
    (if isGivenStr start_period then ["origin_date >= :start_date"] else []) ++
    (if isGivenStr end_period then ["origin_date <= :end_date"] else [])

/-- The classification-join CTE text of `GET /aggregates/top-n`. -/
def topNJoinCteSQL : String :=
  "\n            WITH all_incidents AS (\n" ++
    "                SELECT cr.final_category, origin.operator, origin.sanitized_date AS origin_date, origin.phase, origin.aircraft_type, origin.location\n" ++
    "                FROM classification_results cr JOIN public.asn_scraped_accidents origin ON cr.source_uid = origin.uid\n" ++
    "                UNION ALL\n" ++
    "                SELECT cr.final_category, origin.operator, origin.sanitized_date AS origin_date, origin.phase, origin.aircraft_type, origin.place AS location\n" ++
    "                FROM classification_results cr JOIN public.asrs_records origin ON cr.source_uid = origin.uid\n" ++
    "                UNION ALL\n" ++
    "                SELECT cr.final_category, origin.operator, origin.sanitized_date AS origin_date, NULL AS phase, origin.aircraft_type, origin.location\n" ++
    "                FROM classification_results cr JOIN public.pci_scraped_accidents origin ON cr.source_uid = origin.uid\n" ++
    "            )\n        "

/-- The plain CTE text of `GET /aggregates/top-n`. -/
def topNBaseCteSQL : String :=
  "\n            WITH all_incidents AS (\n" ++
    "                SELECT sanitized_date AS origin_date, operator, phase, aircraft_type, location FROM asn_scraped_accidents\n" ++
    "                UNION ALL\n" ++
    "                SELECT sanitized_date AS origin_date, operator, phase, aircraft_type, place AS location FROM asrs_records\n" ++
    "                UNION ALL\n" ++
    "                SELECT sanitized_date AS origin_date, operator, NULL AS phase, aircraft_type, location FROM pci_scraped_accidents\n" ++
    "            )\n        "

/-- The SQL text of `GET /aggregates/top-n` (`n` is carried as the bound
parameter `:n`). -/
def topNSQL (cat : TopNCategory)
    (operators phases aircraft_types locations : Option (List String))
    (start_period end_period : Option String) : String :=
  let col := categoryColName cat
  let whereSql := String.intercalate " AND "
    (topNWhereClauses cat operators phases aircraft_types locations
      start_period end_period)
  let cte := if cat == .final_category then topNJoinCteSQL else topNBaseCteSQL
  "\n        " ++ cte ++ "\n" ++
    "        SELECT\n" ++
    "            " ++ col ++ " AS category_value,\n" ++
    "            COUNT(*) AS incident_count\n" ++
    "        FROM all_incidents\n" ++
    "        WHERE " ++ whereSql ++ "\n" ++
    "        GROUP BY " ++ col ++ "\n" ++
    "        ORDER BY incident_count DESC\n" ++
    "        LIMIT :n;\n    "

/-- Python truthiness of the optional `start_year` / `end_year` integer
parameters of the aggregates router: the code tests `is not None`, so any
integer (including 0) counts as supplied. -/
def isGivenInt : Option Int → Bool
  | some _ => true
  | none => false

/-- The validated `dimension1` / `dimension2` parameter of
`GET /aggregates/heatmap` (the FastAPI `Literal` values). -/
inductive HeatmapDimension where
  | operator
  | aircraft_type
  | phase
deriving DecidableEq, Repr

/-- The `col_map` resolution of a heatmap dimension to a column identifier. -/
def heatmapDimCol : HeatmapDimension → String
  | .operator => "operator"
  | .aircraft_type => "aircraft_type"
  | .phase => "phase"

/-- The plain `all_incidents` CTE text shared verbatim by the heatmap,
hierarchy, locations-over-time and by-location endpoints. -/
def plainCteSQL : String :=
  "\n        WITH all_incidents AS (\n" ++
    "            SELECT sanitized_date AS origin_date, operator, phase, aircraft_type, location FROM asn_scraped_accidents\n" ++
    "            UNION ALL\n" ++
    "            SELECT sanitized_date AS origin_date, operator, phase, aircraft_type, place as location FROM asrs_records\n" ++
    "            UNION ALL\n" ++
    "            SELECT sanitized_date AS origin_date, operator, NULL as phase, aircraft_type, location FROM pci_scraped_accidents\n" ++
    "        )\n"

/-- The `WHERE` clause fragments of `GET /aggregates/heatmap`, in the order
the handler appends them. -/
def heatmapWhereClauses (dim1 dim2 : HeatmapDimension)
    (operators phases aircraft_types locations : Option (List String))
    (start_period end_period : Option String) : List String :=
  [heatmapDimCol dim1 ++ " IS NOT NULL", heatmapDimCol dim2 ++ " IS NOT NULL"] ++
    (if isGiven operators then ["operator IN :operators"] else []) ++
    (if isGiven phases then ["phase IN :phases"] else []) ++
    (if isGiven aircraft_types then ["aircraft_type IN :aircraft_types"] else []) ++
    (if isGiven locations then ["location IN :locations"] else []) ++
    (if isGivenStr start_period then ["origin_date >= :start_date"] else []) ++
    (if isGivenStr end_period then ["origin_date <= :end_date"] else [])

/-- The SQL text of `GET /aggregates/heatmap`; `none` models the early
`return []` on identical dimensions, where no query is built or sent. -/
def heatmapSQL (dim1 dim2 : HeatmapDimension)
    (operators phases aircraft_types locations : Option (List String))
    (start_period end_period : Option String) : Option String :=
  if dim1 = dim2 then none
  else
    some (plainCteSQL ++
      "        SELECT\n" ++
      "            " ++ heatmapDimCol dim1 ++ " AS dim1_value,\n" ++
      "            " ++ heatmapDimCol dim2 ++ " AS dim2_value,\n" ++
      "            COUNT(*) AS incident_count\n" ++
      "        FROM all_incidents\n" ++
      "        WHERE " ++ String.intercalate " AND "
        (heatmapWhereClauses dim1 dim2 operators phases aircraft_types locations
          start_period end_period) ++ "\n" ++
      "        GROUP BY " ++ heatmapDimCol dim1 ++ ", " ++ heatmapDimCol dim2 ++ "\n" ++
      "        ORDER BY incident_count DESC;\n    ")

/-- The `WHERE` clause fragments of `GET /aggregates/classification-over-time`
in the order the handler appends them — the handler's duplicated
`if locations:` block appends the locations clause twice. -/
def classificationOverTimeWhereClauses
    (final_categories phases locations aircraft_types : Option (List String))
    (start_period end_period : Option String) : List String :=
  ["inc.origin_date IS NOT NULL"] ++
    (if isGiven final_categories then ["inc.final_category IN :final_categories"] else []) ++
    (if isGiven phases then ["inc.phase IN :phases"] else []) ++
    (if isGiven locations then ["inc.location IN :locations"] else []) ++
    (if isGiven aircraft_types then ["inc.aircraft_type IN :aircraft_types"] else []) ++
    (if isGiven locations then ["inc.location IN :locations"] else []) ++
    (if isGivenStr start_period then ["inc.origin_date >= :start_date"] else []) ++
    (if isGivenStr end_period then ["inc.origin_date <= :end_date"] else [])

/-- The SQL text of `GET /aggregates/classification-over-time`. -/
def classificationOverTimeSQL (p : PeriodGranularity)
    (final_categories phases locations aircraft_types : Option (List String))
    (start_period end_period : Option String) : String :=
  let dateTrunc := match p with
    | .year => "EXTRACT(YEAR FROM inc.origin_date)"
    | .month => "TO_CHAR(inc.origin_date, " ++ sq ++ "YYYY-MM" ++ sq ++ ")"
  "\n        WITH classified_incidents AS (\n" ++
    "            SELECT cr.final_category, origin.sanitized_date AS origin_date, origin.phase, origin.aircraft_type, origin.location\n" ++
    "            FROM classification_results cr JOIN asn_scraped_accidents origin ON cr.source_uid = origin.uid\n" ++
    "            UNION ALL\n" ++
    "            SELECT cr.final_category, origin.sanitized_date AS origin_date, origin.phase, origin.aircraft_type, origin.place AS location\n" ++
    "            FROM classification_results cr JOIN asrs_records origin ON cr.source_uid = origin.uid\n" ++
    "            UNION ALL\n" ++
    "            SELECT cr.final_category, origin.sanitized_date AS origin_date, NULL AS phase, origin.aircraft_type, origin.location\n" ++
    "            FROM classification_results cr JOIN pci_scraped_accidents origin ON cr.source_uid = origin.uid\n" ++
    "        )\n" ++
    "        SELECT\n" ++
    "            " ++ dateTrunc ++ " AS period_start,\n" ++
    "            COUNT(*) AS incident_count\n" ++
    "        FROM classified_incidents inc\n" ++
    "        WHERE " ++ String.intercalate " AND "
      (classificationOverTimeWhereClauses final_categories phases locations
        aircraft_types start_period end_period) ++ "\n" ++
    "        GROUP BY period_start\n" ++
    "        ORDER BY period_start;\n    "

/-- The `WHERE` clause fragments of `GET /incidents/locations`, in the order
the handler appends them. -/
def incidentLocationsWhereClauses
    (operators phases aircraft_types : Option (List String))
    (start_period end_period : Option String) : List String :=
  ["al.lat IS NOT NULL AND al.lon IS NOT NULL"] ++
    (if isGiven operators then ["inc.operator IN :operators"] else []) ++
    (if isGiven phases then ["inc.phase IN :phases"] else []) ++
    (if isGiven aircraft_types then ["inc.aircraft_type IN :aircraft_types"] else []) ++
    (if isGivenStr start_period then ["inc.origin_date >= :start_date"] else []) ++
    (if isGivenStr end_period then ["inc.origin_date <= :end_date"] else [])

/-- The SQL text of `GET /incidents/locations`. -/
def incidentLocationsSQL (operators phases aircraft_types : Option (List String))
    (start_period end_period : Option String) : String :=
  "\n        WITH all_incidents AS (\n" ++
    "            SELECT uid, narrative AS summary, sanitized_date AS origin_date, phase, aircraft_type,\n" ++
    "                location, operator\n" ++
    "            FROM asn_scraped_accidents\n" ++
    "            UNION ALL\n" ++
    "            SELECT uid, synopsis AS summary, sanitized_date AS origin_date, phase, aircraft_type,\n" ++
    "                place AS location, operator\n" ++
    "            FROM asrs_records\n" ++
    "            UNION ALL\n" ++
    "            SELECT uid, summary, sanitized_date AS origin_date, NULL as phase, aircraft_type,\n" ++
    "                location, operator\n" ++
    "            FROM pci_scraped_accidents\n" ++
    "        )\n" ++
    "        SELECT\n" ++
    "            inc.uid, inc.summary, inc.origin_date, inc.operator,\n" ++
    "            al.lat, al.lon, al.name as location_name\n" ++
    "        FROM all_incidents inc\n" ++
    "        LEFT JOIN airport_location al ON inc.location = al.icao_code\n" ++
    "        WHERE " ++ String.intercalate " AND "
      (incidentLocationsWhereClauses operators phases aircraft_types
        start_period end_period) ++ "\n" ++
    "        ORDER BY inc.origin_date DESC;\n    "

/-- The `WHERE` clause fragments of `GET /aggregates/hierarchy`, in the order
the handler appends them. -/
def hierarchyWhereClauses
    (operators phases aircraft_types locations : Option (List String))
    (start_period end_period : Option String) : List String :=
  ["operator IS NOT NULL", "aircraft_type IS NOT NULL", "phase IS NOT NULL"] ++
    (if isGiven operators then ["operator IN :operators"] else []) ++
    (if isGiven phases then ["phase IN :phases"] else []) ++
    (if isGiven aircraft_types then ["aircraft_type IN :aircraft_types"] else []) ++
    (if isGiven locations then ["location IN :locations"] else []) ++
    (if isGivenStr start_period then ["origin_date >= :start_date"] else []) ++
    (if isGivenStr end_period then ["origin_date <= :end_date"] else [])

/-- The SQL text of `GET /aggregates/hierarchy`. -/
def hierarchySQL (operators phases aircraft_types locations : Option (List String))
    (start_period end_period : Option String) : String :=
  plainCteSQL ++
    "        SELECT operator, aircraft_type, phase, COUNT(*) as incident_count\n" ++
    "        FROM all_incidents\n" ++
    "        WHERE " ++ String.intercalate " AND "
      (hierarchyWhereClauses operators phases aircraft_types locations
        start_period end_period) ++ "\n" ++
    "        GROUP BY operator, aircraft_type, phase;\n    "

/-- The `WHERE` clause fragments of `GET /aggregates/locations-over-time`, in
the order the handler appends them (the locations filter is lower-cased). -/
def locationsOverTimeWhereClauses
    (operators phases aircraft_types locations : Option (List String))
    (start_period end_period : Option String) : List String :=
  ["inc.location IS NOT NULL", "inc.origin_date IS NOT NULL"] ++
    (if isGiven operators then ["inc.operator IN :operators"] else []) ++
    (if isGiven phases then ["inc.phase IN :phases"] else []) ++
    (if isGiven aircraft_types then ["inc.aircraft_type IN :aircraft_types"] else []) ++
    (if isGiven locations then ["LOWER(inc.location) IN :locations"] else []) ++
    (if isGivenStr start_period then ["inc.origin_date >= :start_date"] else []) ++
    (if isGivenStr end_period then ["inc.origin_date <= :end_date"] else [])

/-- The SQL text of `GET /aggregates/locations-over-time`. -/
def locationsOverTimeSQL
    (operators phases aircraft_types locations : Option (List String))
    (start_period end_period : Option String) : String :=
  plainCteSQL ++
    "        SELECT\n" ++
    "            al.lat, al.lon, al.name AS location_name,\n" ++
    "            TO_CHAR(inc.origin_date, " ++ sq ++ "YYYY-MM" ++ sq ++ ") AS period,\n" ++
    "            COUNT(*) AS incident_count\n" ++
    "        FROM all_incidents inc\n" ++
    "        JOIN airport_location al ON LOWER(inc.location) = LOWER(al.icao_code)\n" ++
    "        WHERE " ++ String.intercalate " AND "
      (locationsOverTimeWhereClauses operators phases aircraft_types locations
        start_period end_period) ++ "\n" ++
    "        GROUP BY al.lat, al.lon, al.name, period\n" ++
    "        ORDER BY period, incident_count DESC;\n    "

/-- The `WHERE` clause fragments of `GET /aggregates/by-location`, in the
order the handler appends them (this endpoint takes no locations filter). -/
def byLocationWhereClauses (operators phases aircraft_types : Option (List String))
    (start_period end_period : Option String) : List String :=
  ["location IS NOT NULL", "location != " ++ sq ++ sq] ++
    (if isGiven operators then ["operator IN :operators"] else []) ++
    (if isGiven phases then ["phase IN :phases"] else []) ++
    (if isGiven aircraft_types then ["aircraft_type IN :aircraft_types"] else []) ++
    (if isGivenStr start_period then ["origin_date >= :start_date"] else []) ++
    (if isGivenStr end_period then ["origin_date <= :end_date"] else [])

/-- The SQL text of `GET /aggregates/by-location`. -/
def byLocationSQL (operators phases aircraft_types : Option (List String))
    (start_period end_period : Option String) : String :=
  plainCteSQL ++
    "        SELECT location, COUNT(*) as incident_count\n" ++
    "        FROM all_incidents\n" ++
    "        WHERE " ++ String.intercalate " AND "
      (byLocationWhereClauses operators phases aircraft_types
        start_period end_period) ++ "\n" ++
    "        GROUP BY location\n" ++
    "        ORDER BY incident_count DESC;\n    "

/-- The `WHERE` clause fragments of `GET /aggregates/statistics`, in the
order the handler appends them (the period bounds compare the un-renamed
`sanitized_date` column). -/
def statisticsWhereClauses
    (operators phases aircraft_types locations : Option (List String))
    (start_period end_period : Option String) : List String :=
  ["uid IS NOT NULL"] ++
    (if isGiven operators then ["operator IN :operators"] else []) ++
    (if isGiven phases then ["phase IN :phases"] else []) ++
    (if isGiven aircraft_types then ["aircraft_type IN :aircraft_types"] else []) ++
    (if isGiven locations then ["location IN :locations"] else []) ++
    (if isGivenStr start_period then ["sanitized_date >= :start_date"] else []) ++
    (if isGivenStr end_period then ["sanitized_date <= :end_date"] else [])

/-- The SQL text of `GET /aggregates/statistics`. -/
def statisticsSQL (operators phases aircraft_types locations : Option (List String))
    (start_period end_period : Option String) : String :=
  "\n        WITH all_incidents AS (\n" ++
    "            SELECT uid, sanitized_date, operator, phase, aircraft_type, location FROM public.asn_scraped_accidents\n" ++
    "            UNION ALL\n" ++
    "            SELECT uid, sanitized_date, operator, phase, aircraft_type, place as location FROM public.asrs_records\n" ++
    "            UNION ALL\n" ++
    "            SELECT uid, sanitized_date, operator, NULL as phase, aircraft_type, location FROM public.pci_scraped_accidents\n" ++
    "        )\n" ++
    "        SELECT COUNT(*) as total_incidents FROM all_incidents WHERE " ++
    String.intercalate " AND "
      (statisticsWhereClauses operators phases aircraft_types locations
        start_period end_period) ++ ";\n    "

/-- The `WHERE` clause fragments of `GET /aggregates/seasonal-distribution`
(the year bounds are tested with `is not None`, so 0 counts as supplied). -/
def seasonalWhereClauses (start_year end_year : Option Int) : List String :=
  ["origin_date IS NOT NULL"] ++
    (if isGivenInt start_year then ["EXTRACT(YEAR FROM origin_date) >= :start_year"] else []) ++
    (if isGivenInt end_year then ["EXTRACT(YEAR FROM origin_date) <= :end_year"] else [])

/-- The SQL text of `GET /aggregates/seasonal-distribution`. -/
def seasonalSQL (start_year end_year : Option Int) : String :=
  "\n        WITH all_incidents AS (\n" ++
    "            SELECT sanitized_date AS origin_date FROM public.asn_scraped_accidents\n" ++
    "            UNION ALL\n" ++
    "            SELECT sanitized_date AS origin_date FROM public.asrs_records\n" ++
    "            UNION ALL\n" ++
    "            SELECT sanitized_date AS origin_date FROM public.pci_scraped_accidents\n" ++
    "        )\n" ++
    "        SELECT\n" ++
    "            EXTRACT(YEAR FROM origin_date)::INTEGER AS year,\n" ++
    "            EXTRACT(MONTH FROM origin_date)::INTEGER AS month,\n" ++
    "            COUNT(*) AS count\n" ++
    "        FROM all_incidents\n" ++
    "        WHERE " ++ String.intercalate " AND "
      (seasonalWhereClauses start_year end_year) ++ "\n" ++
    "        GROUP BY year, month\n    "

/-- The `WHERE` clause fragments of `GET /aggregates/risk-heatmap`. -/
def riskHeatmapWhereClauses (start_year end_year : Option Int) : List String :=
  ["inc.phase IS NOT NULL", "inc.final_category IS NOT NULL"] ++
    (if isGivenInt start_year then ["EXTRACT(YEAR FROM inc.origin_date) >= :start_year"] else []) ++
    (if isGivenInt end_year then ["EXTRACT(YEAR FROM inc.origin_date) <= :end_year"] else [])

/-- The SQL text of `GET /aggregates/risk-heatmap` (`limit` is carried as the
bound parameter `:limit`). -/
def riskHeatmapSQL (start_year end_year : Option Int) : String :=
  "\n        WITH classified_incidents AS (\n" ++
    "            SELECT cr.final_category, origin.sanitized_date AS origin_date, origin.phase\n" ++
    "            FROM classification_results cr JOIN public.asn_scraped_accidents origin ON cr.source_uid = origin.uid\n" ++
    "            UNION ALL\n" ++
    "            SELECT cr.final_category, origin.sanitized_date AS origin_date, origin.phase\n" ++
    "            FROM classification_results cr JOIN public.asrs_records origin ON cr.source_uid = origin.uid\n" ++
    "            UNION ALL\n" ++
    "            SELECT cr.final_category, origin.sanitized_date AS origin_date, NULL AS phase\n" ++
    "            FROM classification_results cr JOIN public.pci_scraped_accidents origin ON cr.source_uid = origin.uid\n" ++
    "        )\n" ++
    "        SELECT\n" ++
    "            inc.phase,\n" ++
    "            inc.final_category AS category,\n" ++
    "            COUNT(*) AS count\n" ++
    "        FROM classified_incidents inc\n" ++
    "        WHERE " ++ String.intercalate " AND "
      (riskHeatmapWhereClauses start_year end_year) ++ "\n" ++
    "        GROUP BY inc.phase, inc.final_category\n" ++
    "        ORDER BY count DESC\n" ++
    "        LIMIT :limit\n    "

/-- The `WHERE` clause fragments of `GET /reports/uids_by_filter`, in the
order the handler appends them. -/
def reportsWhereClauses
    (operators locations phases aircraft_types : Option (List String))
    (start_period end_period : Option String) : List String :=
  ["uid IS NOT NULL"] ++
    (if isGiven operators then ["operator IN :operators"] else []) ++
    (if isGiven locations then ["location IN :locations"] else []) ++
    (if isGiven phases then ["phase IN :phases"] else []) ++
    (if isGiven aircraft_types then ["aircraft_type IN :aircraft_types"] else []) ++
    (if isGivenStr start_period then ["origin_date >= :start_date"] else []) ++
    (if isGivenStr end_period then ["origin_date <= :end_date"] else [])

/-- The SQL text built by `GET /reports/uids_by_filter` (constructed before
the `bindparam` NameError can fire, so it is defined for every request). -/
def reportsSQL (operators locations phases aircraft_types : Option (List String))
    (start_period end_period : Option String) : String :=
  "\n        WITH all_incidents AS (\n" ++
    "            SELECT uid, sanitized_date AS origin_date, operator, phase, aircraft_type, location FROM public.asn_scraped_accidents\n" ++
    "            UNION ALL\n" ++
    "            SELECT uid, sanitized_date AS origin_date, operator, phase, aircraft_type, place AS location FROM public.asrs_records\n" ++
    "            UNION ALL\n" ++
    "            SELECT uid, sanitized_date AS origin_date, operator, NULL AS phase, aircraft_type, location FROM public.pci_scraped_accidents\n" ++
    "        )\n" ++
    "        SELECT uid FROM all_incidents WHERE " ++ String.intercalate " AND "
      (reportsWhereClauses operators locations phases aircraft_types
        start_period end_period) ++ " ORDER BY origin_date DESC;\n    "

/-- The SQL text of `GET /classification-results`: a fixed base, an optional
`WHERE` on the evaluator, and fixed pagination with bound parameters. -/
def classificationResultsSQL (evaluator_id : Option String) : String :=
  "\n        SELECT\n" ++
    "            cr.*,\n" ++
    "            COALESCE(ea.is_complete, FALSE) AS is_complete,\n" ++
    "            ea.evaluator_id\n" ++
    "        FROM\n" ++
    "            classification_results cr\n" ++
    "        LEFT JOIN\n" ++
    "            evaluation_assignments ea ON cr.id = ea.classification_result_id\n" ++
    "    " ++
    (if isGivenStr evaluator_id then " WHERE ea.evaluator_id = :evaluator_id" else "") ++
    " ORDER BY cr.id OFFSET :skip LIMIT :limit"

/-! ## Theorems -/

/-- C2: the unioned "all incidents" sequence is a plain concatenation
containing every source row, so its length is the sum of the three source
row counts; and with no filters supplied, `GET /aggregates/statistics`
returns `total_incidents` equal to that sum whenever every source row has a
non-null uid. -/
theorem union_all_count_exact (db : IncidentDB)
    (h : ∀ r ∈ allIncidentsStats db, r.uid.isSome = true) :
    (allIncidentsStats db).length = db.asn.length + db.asrs.length + db.pci.length ∧
    getStatisticsTotal db noFilters = db.asn.length + db.asrs.length + db.pci.length := by
  have hlen : (allIncidentsStats db).length =
      db.asn.length + db.asrs.length + db.pci.length := by
    simp [allIncidentsStats, Nat.add_assoc]
  refine ⟨hlen, ?_⟩
  rw [getStatisticsTotal, List.countP_eq_length.mpr, hlen]
  intro r hr
  simp [statsWhere, noFilters, listFilterPasses, isGiven, startDatePasses,
    endDatePasses, h r hr]

/-- Witness for `union_all_count_exact` at a store holding one row per source
table, each with a non-null uid. -/
theorem union_all_count_exact_witness :
    (allIncidentsStats
        ⟨[⟨some "asn_1", none, none, none, none, none, none, none⟩],
         [⟨some "asrs_1", none, none, none, none, none, none, none⟩],
         [⟨some "pci_1", none, none, none, none, none, none⟩], []⟩).length = 3 ∧
    getStatisticsTotal
        ⟨[⟨some "asn_1", none, none, none, none, none, none, none⟩],
         [⟨some "asrs_1", none, none, none, none, none, none, none⟩],
         [⟨some "pci_1", none, none, none, none, none, none⟩], []⟩ noFilters = 3 :=
  union_all_count_exact
    ⟨[⟨some "asn_1", none, none, none, none, none, none, none⟩],
     [⟨some "asrs_1", none, none, none, none, none, none, none⟩],
     [⟨some "pci_1", none, none, none, none, none, none⟩], []⟩ (by decide)

/-- C9: for every query-layer endpoint, the SQL text is a function only of
which filters are supplied and of the allow-listed identifier choices (period
granularity, group-by dimension, heatmap dimensions), never of the filter
values: same-shape requests yield character-identical SQL.  One conjunct per
SQL-building endpoint: over-time, top-n, heatmap, classification-over-time,
incidents/locations, hierarchy, locations-over-time, by-location, statistics,
seasonal-distribution, risk-heatmap, reports/uids_by_filter and
classification-results. -/
theorem sql_text_depends_only_on_shape :
    (∀ (p : PeriodGranularity) (o1 ph1 a1 : Option (List String))
        (s1 e1 : Option String) (o2 ph2 a2 : Option (List String))
        (s2 e2 : Option String),
        isGiven o1 = isGiven o2 → isGiven ph1 = isGiven ph2 →
        isGiven a1 = isGiven a2 → isGivenStr s1 = isGivenStr s2 →
        isGivenStr e1 = isGivenStr e2 →
        overTimeSQL p o1 ph1 a1 s1 e1 = overTimeSQL p o2 ph2 a2 s2 e2) ∧
    (∀ (cat : TopNCategory) (o1 ph1 a1 l1 : Option (List String))
        (s1 e1 : Option String) (o2 ph2 a2 l2 : Option (List String))
        (s2 e2 : Option String),
        isGiven o1 = isGiven o2 → isGiven ph1 = isGiven ph2 →
        isGiven a1 = isGiven a2 → isGiven l1 = isGiven l2 →
        isGivenStr s1 = isGivenStr s2 → isGivenStr e1 = isGivenStr e2 →
        topNSQL cat o1 ph1 a1 l1 s1 e1 = topNSQL cat o2 ph2 a2 l2 s2 e2) ∧
    (∀ (d1 d2 : HeatmapDimension) (o1 ph1 a1 l1 : Option (List String))
        (s1 e1 : Option String) (o2 ph2 a2 l2 : Option (List String))
        (s2 e2 : Option String),
        isGiven o1 = isGiven o2 → isGiven ph1 = isGiven ph2 →
        isGiven a1 = isGiven a2 → isGiven l1 = isGiven l2 →
        isGivenStr s1 = isGivenStr s2 → isGivenStr e1 = isGivenStr e2 →
        heatmapSQL d1 d2 o1 ph1 a1 l1 s1 e1 =
          heatmapSQL d1 d2 o2 ph2 a2 l2 s2 e2) ∧
    (∀ (p : PeriodGranularity) (f1 ph1 l1 a1 : Option (List String))
        (s1 e1 : Option String) (f2 ph2 l2 a2 : Option (List String))
        (s2 e2 : Option String),
        isGiven f1 = isGiven f2 → isGiven ph1 = isGiven ph2 →
        isGiven l1 = isGiven l2 → isGiven a1 = isGiven a2 →
        isGivenStr s1 = isGivenStr s2 → isGivenStr e1 = isGivenStr e2 →
        classificationOverTimeSQL p f1 ph1 l1 a1 s1 e1 =
          classificationOverTimeSQL p f2 ph2 l2 a2 s2 e2) ∧
    (∀ (o1 ph1 a1 : Option (List String)) (s1 e1 : Option String)
        (o2 ph2 a2 : Option (List String)) (s2 e2 : Option String),
        isGiven o1 = isGiven o2 → isGiven ph1 = isGiven ph2 →
        isGiven a1 = isGiven a2 → isGivenStr s1 = isGivenStr s2 →
        isGivenStr e1 = isGivenStr e2 →
        incidentLocationsSQL o1 ph1 a1 s1 e1 =
          incidentLocationsSQL o2 ph2 a2 s2 e2) ∧
    (∀ (o1 ph1 a1 l1 : Option (List String)) (s1 e1 : Option String)
        (o2 ph2 a2 l2 : Option (List String)) (s2 e2 : Option String),
        isGiven o1 = isGiven o2 → isGiven ph1 = isGiven ph2 →
        isGiven a1 = isGiven a2 → isGiven l1 = isGiven l2 →
        isGivenStr s1 = isGivenStr s2 → isGivenStr e1 = isGivenStr e2 →
        hierarchySQL o1 ph1 a1 l1 s1 e1 = hierarchySQL o2 ph2 a2 l2 s2 e2) ∧
    (∀ (o1 ph1 a1 l1 : Option (List String)) (s1 e1 : Option String)
        (o2 ph2 a2 l2 : Option (List String)) (s2 e2 : Option String),
        isGiven o1 = isGiven o2 → isGiven ph1 = isGiven ph2 →
        isGiven a1 = isGiven a2 → isGiven l1 = isGiven l2 →
        isGivenStr s1 = isGivenStr s2 → isGivenStr e1 = isGivenStr e2 →
        locationsOverTimeSQL o1 ph1 a1 l1 s1 e1 =
          locationsOverTimeSQL o2 ph2 a2 l2 s2 e2) ∧
    (∀ (o1 ph1 a1 : Option (List String)) (s1 e1 : Option String)
        (o2 ph2 a2 : Option (List String)) (s2 e2 : Option String),
        isGiven o1 = isGiven o2 → isGiven ph1 = isGiven ph2 →
        isGiven a1 = isGiven a2 → isGivenStr s1 = isGivenStr s2 →
        isGivenStr e1 = isGivenStr e2 →
        byLocationSQL o1 ph1 a1 s1 e1 = byLocationSQL o2 ph2 a2 s2 e2) ∧
    (∀ (o1 ph1 a1 l1 : Option (List String)) (s1 e1 : Option String)
        (o2 ph2 a2 l2 : Option (List String)) (s2 e2 : Option String),
        isGiven o1 = isGiven o2 → isGiven ph1 = isGiven ph2 →
        isGiven a1 = isGiven a2 → isGiven l1 = isGiven l2 →
        isGivenStr s1 = isGivenStr s2 → isGivenStr e1 = isGivenStr e2 →
        statisticsSQL o1 ph1 a1 l1 s1 e1 = statisticsSQL o2 ph2 a2 l2 s2 e2) ∧
    (∀ (y1 z1 y2 z2 : Option Int),
        isGivenInt y1 = isGivenInt y2 → isGivenInt z1 = isGivenInt z2 →
        seasonalSQL y1 z1 = seasonalSQL y2 z2) ∧
    (∀ (y1 z1 y2 z2 : Option Int),
        isGivenInt y1 = isGivenInt y2 → isGivenInt z1 = isGivenInt z2 →
        riskHeatmapSQL y1 z1 = riskHeatmapSQL y2 z2) ∧
    (∀ (o1 l1 ph1 a1 : Option (List String)) (s1 e1 : Option String)
        (o2 l2 ph2 a2 : Option (List String)) (s2 e2 : Option String),
        isGiven o1 = isGiven o2 → isGiven l1 = isGiven l2 →
        isGiven ph1 = isGiven ph2 → isGiven a1 = isGiven a2 →
        isGivenStr s1 = isGivenStr s2 → isGivenStr e1 = isGivenStr e2 →
        reportsSQL o1 l1 ph1 a1 s1 e1 = reportsSQL o2 l2 ph2 a2 s2 e2) ∧
    (∀ (v1 v2 : Option String), isGivenStr v1 = isGivenStr v2 →
        classificationResultsSQL v1 = classificationResultsSQL v2) := by
  refine ⟨?_, ?_, ?_, ?_, ?_, ?_, ?_, ?_, ?_, ?_, ?_, ?_, ?_⟩
  · intro p o1 ph1 a1 s1 e1 o2 ph2 a2 s2 e2 h1 h2 h3 h4 h5
    simp only [overTimeSQL, overTimeWhereClauses, h1, h2, h3, h4, h5]
  · intro cat o1 ph1 a1 l1 s1 e1 o2 ph2 a2 l2 s2 e2 h1 h2 h3 h4 h5 h6
    simp only [topNSQL, topNWhereClauses, h1, h2, h3, h4, h5, h6]
  · intro d1 d2 o1 ph1 a1 l1 s1 e1 o2 ph2 a2 l2 s2 e2 h1 h2 h3 h4 h5 h6
    simp only [heatmapSQL, heatmapWhereClauses, h1, h2, h3, h4, h5, h6]
  · intro p f1 ph1 l1 a1 s1 e1 f2 ph2 l2 a2 s2 e2 h1 h2 h3 h4 h5 h6
    simp only [classificationOverTimeSQL, classificationOverTimeWhereClauses,
      h1, h2, h3, h4, h5, h6]
  · intro o1 ph1 a1 s1 e1 o2 ph2 a2 s2 e2 h1 h2 h3 h4 h5
    simp only [incidentLocationsSQL, incidentLocationsWhereClauses,
      h1, h2, h3, h4, h5]
  · intro o1 ph1 a1 l1 s1 e1 o2 ph2 a2 l2 s2 e2 h1 h2 h3 h4 h5 h6
    simp only [hierarchySQL, hierarchyWhereClauses, h1, h2, h3, h4, h5, h6]
  · intro o1 ph1 a1 l1 s1 e1 o2 ph2 a2 l2 s2 e2 h1 h2 h3 h4 h5 h6
    simp only [locationsOverTimeSQL, locationsOverTimeWhereClauses,
      h1, h2, h3, h4, h5, h6]
  · intro o1 ph1 a1 s1 e1 o2 ph2 a2 s2 e2 h1 h2 h3 h4 h5
    simp only [byLocationSQL, byLocationWhereClauses, h1, h2, h3, h4, h5]
  · intro o1 ph1 a1 l1 s1 e1 o2 ph2 a2 l2 s2 e2 h1 h2 h3 h4 h5 h6
    simp only [statisticsSQL, statisticsWhereClauses, h1, h2, h3, h4, h5, h6]
  · intro y1 z1 y2 z2 h1 h2
    simp only [seasonalSQL, seasonalWhereClauses, h1, h2]
  · intro y1 z1 y2 z2 h1 h2
    simp only [riskHeatmapSQL, riskHeatmapWhereClauses, h1, h2]
  · intro o1 l1 ph1 a1 s1 e1 o2 l2 ph2 a2 s2 e2 h1 h2 h3 h4 h5 h6
    simp only [reportsSQL, reportsWhereClauses, h1, h2, h3, h4, h5, h6]
  · intro v1 v2 h1
    simp only [classificationResultsSQL, h1]

/-- Witness for `sql_text_depends_only_on_shape`: same-shape requests with
different filter values produce identical SQL text, for the over-time builder
and for the heatmap builder with its dimension identifiers fixed. -/
theorem sql_text_depends_only_on_shape_witness :
    overTimeSQL .month (some ["Delta"]) none none none none =
      overTimeSQL .month (some ["United Airlines"]) none none none none ∧
    heatmapSQL .operator .phase none none none (some ["kjfk"])
        (some "2024-01") none =
      heatmapSQL .operator .phase none none none (some ["eddf"])
        (some "2023-07") none :=
  ⟨sql_text_depends_only_on_shape.1 .month (some ["Delta"]) none none none none
      (some ["United Airlines"]) none none none none rfl rfl rfl rfl rfl,
    sql_text_depends_only_on_shape.2.2.1 .operator .phase none none none
      (some ["kjfk"]) (some "2024-01") none none none none (some ["eddf"])
      (some "2023-07") none rfl rfl rfl rfl rfl rfl⟩

lemma digitsToNat_lt_pow (cs : List Char) (h : ∀ c ∈ cs, isDigitChar c = true) :
    digitsToNat cs < 10 ^ cs.length := by
  suffices haux : ∀ (cs : List Char) (n : Nat), (∀ c ∈ cs, isDigitChar c = true) →
      cs.foldl (fun n c => 10 * n + (c.toNat - 48)) n < (n + 1) * 10 ^ cs.length by
    simpa [digitsToNat] using haux cs 0 h
  intro cs
  induction cs with
  | nil => intro n _; simp
  | cons c cs ih =>
    intro n hall
    have hc : c.toNat - 48 ≤ 9 := by
      have := hall c (List.mem_cons_self c cs)
      simp only [isDigitChar, Bool.and_eq_true, decide_eq_true_eq] at this
      omega
    have hrec := ih (10 * n + (c.toNat - 48)) (fun x hx => hall x (List.mem_cons_of_mem c hx))
    calc (c :: cs).foldl (fun n c => 10 * n + (c.toNat - 48)) n
        = cs.foldl (fun n c => 10 * n + (c.toNat - 48)) (10 * n + (c.toNat - 48)) := rfl
      _ < (10 * n + (c.toNat - 48) + 1) * 10 ^ cs.length := hrec
      _ ≤ ((n + 1) * 10) * 10 ^ cs.length := by
          have : 10 * n + (c.toNat - 48) + 1 ≤ (n + 1) * 10 := by omega
          exact Nat.mul_le_mul_right _ this
      _ = (n + 1) * 10 ^ (c :: cs).length := by
          simp [List.length_cons, Nat.pow_succ]; ring

lemma periodYear_le_9999 (s : String) (h : periodShapeValid s = true) :
    periodYear s ≤ 9999 := by
  unfold periodShapeValid at h
  split at h
  case h_1 y1 y2 y3 y4 sep m1 m2 heq =>
    simp only [Bool.and_eq_true] at h
    have hdigits : ∀ c ∈ s.toList.take 4, isDigitChar c = true := by
      rw [heq]
      intro c hc
      simp only [List.take_succ_cons, List.take_zero, List.mem_cons,
        List.not_mem_nil, or_false] at hc
      rcases hc with rfl | rfl | rfl | rfl
      · exact h.1.1.1.1.1.1
      · exact h.1.1.1.1.1.2
      · exact h.1.1.1.1.2
      · exact h.1.1.1.2
    have hlt := digitsToNat_lt_pow _ hdigits
    have hlen : (s.toList.take 4).length ≤ 4 := by
      simp [List.length_take]
    have : 10 ^ (s.toList.take 4).length ≤ 10 ^ 4 :=
      Nat.pow_le_pow_right (by omega) hlen
    unfold periodYear
    omega
  case h_2 => exact absurd h (by simp)

lemma daysInMonth_pos (y m : Nat) (h1 : 1 ≤ m) (h2 : m ≤ 12) :
    28 ≤ daysInMonth y m := by
  unfold daysInMonth mdays
  interval_cases m <;> simp

/-- C4 counterexample: the period value "2024-13" has the accepted digit
shape, so it passes the framework's regex validation, and the handler's month
expansion then raises an unhandled `ValueError` — a server error, not the
claimed client error. -/
theorem period_month13_server_error :
    processStartPeriod "2024-13" = PeriodOutcome.serverError ∧
    processEndPeriod "2024-13" = PeriodOutcome.serverError ∧
    processStartPeriod "2024-13" ≠ PeriodOutcome.clientError := by decide

/-- C4 amended: a supplied period value failing the `^\d{4}-\d{2}$` shape is
rejected as a client error before the handler body (hence before any query);
a shape-valid value whose month part is outside 01–12 passes validation and
the handler's expansion then raises an unhandled error — a server error; a
shape-valid value naming a real calendar month (with year ≥ 0001) expands to
the first / last day of that month. -/
theorem period_validation_amended (s : String) :
    (periodShapeValid s = false →
      processStartPeriod s = .clientError ∧ processEndPeriod s = .clientError) ∧
    (periodShapeValid s = true → (periodMonth s = 0 ∨ 12 < periodMonth s) →
      processStartPeriod s = .serverError ∧ processEndPeriod s = .serverError) ∧
    (periodShapeValid s = true → 1 ≤ periodMonth s → periodMonth s ≤ 12 →
      1 ≤ periodYear s →
      processStartPeriod s = .ok ⟨periodYear s, periodMonth s, 1⟩ ∧
      processEndPeriod s =
        .ok ⟨periodYear s, periodMonth s, daysInMonth (periodYear s) (periodMonth s)⟩) := by
  refine ⟨?_, ?_, ?_⟩
  · intro h
    constructor <;> simp [processStartPeriod, processEndPeriod, h]
  · intro hshape hm
    have hd : pyDate (periodYear s) (periodMonth s) 1 = none := by
      unfold pyDate
      rw [if_neg]
      omega
    have hr : monthrangeDays (periodYear s) (periodMonth s) = none := by
      unfold monthrangeDays
      rw [if_neg]
      omega
    constructor
    · simp [processStartPeriod, hshape, hd]
    · simp [processEndPeriod, hshape, hr]
  · intro hshape hm1 hm2 hy1
    have hy2 := periodYear_le_9999 s hshape
    have hdays := daysInMonth_pos (periodYear s) (periodMonth s) hm1 hm2
    have hd : pyDate (periodYear s) (periodMonth s) 1 =
        some ⟨periodYear s, periodMonth s, 1⟩ := by
      unfold pyDate
      rw [if_pos]
      omega
    have hr : monthrangeDays (periodYear s) (periodMonth s) =
        some (daysInMonth (periodYear s) (periodMonth s)) := by
      unfold monthrangeDays
      rw [if_pos]
      omega
    have hd2 : pyDate (periodYear s) (periodMonth s)
        (daysInMonth (periodYear s) (periodMonth s)) =
        some ⟨periodYear s, periodMonth s,
          daysInMonth (periodYear s) (periodMonth s)⟩ := by
      unfold pyDate
      rw [if_pos]
      omega
    constructor
    · simp [processStartPeriod, hshape, hd]
    · simp [processEndPeriod, hshape, hr, hd2]

/-- Witness for `period_validation_amended` at the real leap-year month
"2024-02": it expands to 2024-02-01 through 2024-02-29. -/
theorem period_validation_amended_witness :
    processStartPeriod "2024-02" = .ok ⟨2024, 2, 1⟩ ∧
    processEndPeriod "2024-02" = .ok ⟨2024, 2, 29⟩ := by
  have h := (period_validation_amended "2024-02").2.2 (by decide) (by decide)
    (by decide) (by decide)
  simpa using h

/-- C10: any request to `GET /reports/uids_by_filter` supplying a non-empty
list filter hits the unimported `bindparam` name and fails with a server
error before the query runs; requests with only period filters (or none)
return the UID list of the rows passing the filter. -/
theorem uids_by_filter_nameerror (db : IncidentDB)
    (ops locs phs acts : Option (List String)) (sd ed : Option Date) :
    ((isGiven ops || isGiven locs || isGiven phs || isGiven acts) = true →
      getUidsByFilter db ops locs phs acts sd ed = .serverError) ∧
    ((isGiven ops || isGiven locs || isGiven phs || isGiven acts) = false →
      ∃ uids, getUidsByFilter db ops locs phs acts sd ed = .ok uids ∧
        ∀ u, u ∈ uids ↔ ∃ r ∈ allIncidentsStats db,
          r.uid = some u ∧ reportWhere sd ed r = true) := by
  constructor
  · intro h
    simp [getUidsByFilter, h]
  · intro h
    refine ⟨(((allIncidentsStats db).filter (reportWhere sd ed)).mergeSort
        reportOrderBefore).filterMap (·.uid), ?_, ?_⟩
    · simp [getUidsByFilter, h]
    intro u
    simp only [List.mem_filterMap, List.mem_mergeSort, List.mem_filter]
    constructor
    · rintro ⟨r, ⟨hr, hw⟩, hu⟩
      exact ⟨r, hr, hu, hw⟩
    · rintro ⟨r, hr, hu, hw⟩
      exact ⟨r, ⟨hr, hw⟩, hu⟩

/-- Witness for `uids_by_filter_nameerror`: a request with an operator filter
fails with the server error, and a request with no filters returns the UID
list. -/
theorem uids_by_filter_nameerror_witness :
    getUidsByFilter ⟨[], [], [], []⟩ (some ["Test Operator"]) none none none
        none none = .serverError :=
  (uids_by_filter_nameerror ⟨[], [], [], []⟩ (some ["Test Operator"]) none none
    none none none).1 rfl

lemma submit_not_found (db : EvalDB) (req : HumanEvaluationRequest) (ts : Nat)
    (h : incompleteAssignmentExists db req.classification_result_id
      req.evaluator_id = false) :
    submitHumanEvaluation db req ts = (.notFoundOrComplete, db) := by
  simp [submitHumanEvaluation, h]

lemma submit_success_state (db : EvalDB) (req : HumanEvaluationRequest) (ts : Nat)
    (h : incompleteAssignmentExists db req.classification_result_id
      req.evaluator_id = true) :
    submitHumanEvaluation db req ts =
      (.success,
        ⟨db.assignments.map fun a =>
            if a.classification_result_id == req.classification_result_id &&
                a.evaluator_id == req.evaluator_id then
              { a with is_complete := true, completed_at := some ts }
            else a,
          db.evaluations ++
            [⟨req.classification_result_id, req.evaluator_id, req.human_category,
              req.human_confidence, req.human_reasoning, ts⟩]⟩) := by
  simp [submitHumanEvaluation, h]

lemma no_incomplete_after_success (db : EvalDB) (req : HumanEvaluationRequest)
    (ts : Nat) (h : (submitHumanEvaluation db req ts).1 = .success) :
    incompleteAssignmentExists (submitHumanEvaluation db req ts).2
      req.classification_result_id req.evaluator_id = false := by
  by_cases hex : incompleteAssignmentExists db req.classification_result_id
      req.evaluator_id = true
  · rw [submit_success_state db req ts hex]
    simp only [incompleteAssignmentExists, List.any_map, List.any_eq_false,
      Function.comp_apply]
    intro a _
    by_cases hm : (a.classification_result_id == req.classification_result_id &&
        a.evaluator_id == req.evaluator_id) = true
    · simp [hm]
    · simp only [hm]
      simp only [Bool.and_eq_true, beq_iff_eq] at hm ⊢
      rw [if_neg]
      · intro hcontra
        exact hm ⟨hcontra.1.1, hcontra.1.2⟩
      · simp
  · rw [submit_not_found db req ts (by simpa using hex)] at h
    simp at h

lemma submit_adds_eval (db : EvalDB) (req : HumanEvaluationRequest) (ts : Nat)
    (h : incompleteAssignmentExists db req.classification_result_id
      req.evaluator_id = true) :
    evalCount (submitHumanEvaluation db req ts).2 req.classification_result_id
      req.evaluator_id = evalCount db req.classification_result_id
        req.evaluator_id + 1 := by
  rw [submit_success_state db req ts h]
  simp [evalCount, List.countP_append]

lemma runSubmits_noop (db : EvalDB) (cid : Int) (eid : String)
    (reqs : List (HumanEvaluationRequest × Nat))
    (hdb : incompleteAssignmentExists db cid eid = false)
    (hreqs : ∀ rt ∈ reqs, rt.1.classification_result_id = cid ∧
      rt.1.evaluator_id = eid) :
    runSubmits db reqs = db := by
  induction reqs with
  | nil => rfl
  | cons rt rest ih =>
    obtain ⟨hc, he⟩ := hreqs rt (List.mem_cons_self rt rest)
    have hfail : incompleteAssignmentExists db rt.1.classification_result_id
        rt.1.evaluator_id = false := by rw [hc, he]; exact hdb
    have hstep : (submitHumanEvaluation db rt.1 rt.2).2 = db := by
      rw [submit_not_found db rt.1 rt.2 hfail]
    show runSubmits (submitHumanEvaluation db rt.1 rt.2).2 rest = db
    rw [hstep]
    exact ih fun x hx => hreqs x (List.mem_cons_of_mem rt hx)

lemma runSubmits_count_bound (db : EvalDB) (cid : Int) (eid : String)
    (reqs : List (HumanEvaluationRequest × Nat))
    (hreqs : ∀ rt ∈ reqs, rt.1.classification_result_id = cid ∧
      rt.1.evaluator_id = eid) :
    evalCount (runSubmits db reqs) cid eid ≤ evalCount db cid eid + 1 := by
  induction reqs generalizing db with
  | nil => exact Nat.le_succ _
  | cons rt rest ih =>
    obtain ⟨hc, he⟩ := hreqs rt (List.mem_cons_self rt rest)
    have hrest : ∀ x ∈ rest, x.1.classification_result_id = cid ∧
        x.1.evaluator_id = eid := fun x hx => hreqs x (List.mem_cons_of_mem rt hx)
    show evalCount (runSubmits (submitHumanEvaluation db rt.1 rt.2).2 rest) cid eid ≤ _
    by_cases hex : incompleteAssignmentExists db cid eid = true
    · have hex' : incompleteAssignmentExists db rt.1.classification_result_id
          rt.1.evaluator_id = true := by rw [hc, he]; exact hex
      have hsucc : (submitHumanEvaluation db rt.1 rt.2).1 = .success := by
        rw [submit_success_state db rt.1 rt.2 hex']
      have hnone := no_incomplete_after_success db rt.1 rt.2 hsucc
      rw [hc, he] at hnone
      rw [runSubmits_noop _ cid eid rest hnone hrest]
      have := submit_adds_eval db rt.1 rt.2 hex'
      rw [hc, he] at this
      omega
    · have hex' : incompleteAssignmentExists db rt.1.classification_result_id
          rt.1.evaluator_id = false := by
        rw [hc, he]; simpa using hex
      have hstep : (submitHumanEvaluation db rt.1 rt.2).2 = db := by
        rw [submit_not_found db rt.1 rt.2 hex']
      rw [hstep]
      exact ih db hrest

/-- C1: whenever no assignment row of the pair is incomplete — in particular
after a prior successful submit — the submit endpoint returns the "not found
or already complete" outcome and leaves both tables unchanged; consequently
any sequence of submits for one pair creates at most one `human_evaluation`
row. -/
theorem submit_idempotent_safe :
    (∀ (db : EvalDB) (req : HumanEvaluationRequest) (ts : Nat),
      incompleteAssignmentExists db req.classification_result_id
        req.evaluator_id = false →
      submitHumanEvaluation db req ts = (.notFoundOrComplete, db)) ∧
    (∀ (db : EvalDB) (req : HumanEvaluationRequest) (ts : Nat),
      (submitHumanEvaluation db req ts).1 = .success →
      incompleteAssignmentExists (submitHumanEvaluation db req ts).2
        req.classification_result_id req.evaluator_id = false) ∧
    (∀ (db : EvalDB) (cid : Int) (eid : String)
        (reqs : List (HumanEvaluationRequest × Nat)),
      (∀ rt ∈ reqs, rt.1.classification_result_id = cid ∧
        rt.1.evaluator_id = eid) →
      evalCount (runSubmits db reqs) cid eid ≤ evalCount db cid eid + 1) :=
  ⟨submit_not_found, no_incomplete_after_success,
    fun db cid eid reqs h => runSubmits_count_bound db cid eid reqs h⟩

/-- Witness for `submit_idempotent_safe`: a store whose only assignment for
the pair is already complete rejects the submit and stays unchanged. -/
theorem submit_idempotent_safe_witness :
    submitHumanEvaluation
        ⟨[⟨1, 101, "test_evaluator", true, some 5⟩], []⟩
        ⟨101, "test_evaluator", "Weather", 1, "reasoning"⟩ 7 =
      (.notFoundOrComplete, ⟨[⟨1, 101, "test_evaluator", true, some 5⟩], []⟩) :=
  submit_idempotent_safe.1 ⟨[⟨1, 101, "test_evaluator", true, some 5⟩], []⟩
    ⟨101, "test_evaluator", "Weather", 1, "reasoning"⟩ 7 (by decide)

lemma find_uid_of_exists {α : Type} (l : List α) (f : α → Option String)
    (uid : String) (h : ∃ r ∈ l, f r = some uid) :
    ∃ r, l.find? (fun a => f a == some uid) = some r ∧ r ∈ l ∧ f r = some uid := by
  have hsome : (l.find? (fun a => f a == some uid)).isSome := by
    rw [List.find?_isSome]
    obtain ⟨r, hr, hfr⟩ := h
    exact ⟨r, hr, by simp [hfr]⟩
  obtain ⟨r, hr⟩ := Option.isSome_iff_exists.mp hsome
  refine ⟨r, hr, List.mem_of_find?_eq_some hr, ?_⟩
  have := List.find?_some hr
  simpa using this

/-- C3: the record lookup routes on the UID's source tag — `asn` to the
accidents table, `asrs` to the safety-report table, `pci` to the third
incident table — returning the normalized row when the UID exists in the
designated table, a not-found signal when it does not, and a client error
for any other tag.  (The `GET /record/{uid}` handler is not in the provided
sources; `lookupRecord` is modelled from the spec.) -/
theorem record_lookup_routing (db : IncidentDB) (uid : String) :
    (uidSourceTag uid = "asn" →
      ((∃ r ∈ db.asn, r.uid = some uid) →
        ∃ r ∈ db.asn, r.uid = some uid ∧
          lookupRecord db uid = .found (normalizeAsn r)) ∧
      ((∀ r ∈ db.asn, r.uid ≠ some uid) → lookupRecord db uid = .notFound)) ∧
    (uidSourceTag uid = "asrs" →
      ((∃ r ∈ db.asrs, r.uid = some uid) →
        ∃ r ∈ db.asrs, r.uid = some uid ∧
          lookupRecord db uid = .found (normalizeAsrs r)) ∧
      ((∀ r ∈ db.asrs, r.uid ≠ some uid) → lookupRecord db uid = .notFound)) ∧
    (uidSourceTag uid = "pci" →
      ((∃ r ∈ db.pci, r.uid = some uid) →
        ∃ r ∈ db.pci, r.uid = some uid ∧
          lookupRecord db uid = .found (normalizePci r)) ∧
      ((∀ r ∈ db.pci, r.uid ≠ some uid) → lookupRecord db uid = .notFound)) ∧
    (uidSourceTag uid ≠ "asn" → uidSourceTag uid ≠ "asrs" →
      uidSourceTag uid ≠ "pci" → lookupRecord db uid = .clientError) := by
  refine ⟨?_, ?_, ?_, ?_⟩
  · intro htag
    constructor
    · intro hex
      obtain ⟨r, hfind, hmem, huid⟩ := find_uid_of_exists db.asn (·.uid) uid hex
      exact ⟨r, hmem, huid, by simp [lookupRecord, htag, hfind]⟩
    · intro hnone
      have hfind : db.asn.find? (fun a => a.uid == some uid) = none := by
        rw [List.find?_eq_none]
        intro r hr
        simpa using hnone r hr
      simp [lookupRecord, htag, hfind]
  · intro htag
    have hne : uidSourceTag uid ≠ "asn" := by rw [htag]; decide
    constructor
    · intro hex
      obtain ⟨r, hfind, hmem, huid⟩ := find_uid_of_exists db.asrs (·.uid) uid hex
      exact ⟨r, hmem, huid, by simp [lookupRecord, htag, hne, hfind]⟩
    · intro hnone
      have hfind : db.asrs.find? (fun a => a.uid == some uid) = none := by
        rw [List.find?_eq_none]
        intro r hr
        simpa using hnone r hr
      simp [lookupRecord, htag, hne, hfind]
  · intro htag
    have hne : uidSourceTag uid ≠ "asn" := by rw [htag]; decide
    have hne2 : uidSourceTag uid ≠ "asrs" := by rw [htag]; decide
    constructor
    · intro hex
      obtain ⟨r, hfind, hmem, huid⟩ := find_uid_of_exists db.pci (·.uid) uid hex
      exact ⟨r, hmem, huid, by simp [lookupRecord, htag, hne, hne2, hfind]⟩
    · intro hnone
      have hfind : db.pci.find? (fun a => a.uid == some uid) = none := by
        rw [List.find?_eq_none]
        intro r hr
        simpa using hnone r hr
      simp [lookupRecord, htag, hne, hne2, hfind]
  · intro h1 h2 h3
    simp [lookupRecord, h1, h2, h3]

/-- Witness for `record_lookup_routing`: the tag `foo` is none of the three
source tags, so the lookup is a client error even on a populated store. -/
theorem record_lookup_routing_witness :
    lookupRecord ⟨[⟨some "asn_1", none, none, none, none, none, none, none⟩],
        [], [], []⟩ "foo_9" = .clientError :=
  (record_lookup_routing
      ⟨[⟨some "asn_1", none, none, none, none, none, none, none⟩], [], [], []⟩
      "foo_9").2.2.2 (by decide) (by decide) (by decide)

lemma processStartPeriod_ok_inv (s : String) (d : Date)
    (h : processStartPeriod s = .ok d) :
    d = ⟨periodYear s, periodMonth s, 1⟩ := by
  unfold processStartPeriod at h
  split at h
  · rcases hpd : pyDate (periodYear s) (periodMonth s) 1 with _ | d'
    · rw [hpd] at h
      simp at h
    · rw [hpd] at h
      simp only [PeriodOutcome.ok.injEq] at h
      unfold pyDate at hpd
      split at hpd
      · rw [Option.some.injEq] at hpd
        rw [← h]
        exact hpd.symm
      · simp at hpd
  · simp at h

lemma processEndPeriod_ok_inv (s : String) (d : Date)
    (h : processEndPeriod s = .ok d) :
    d = ⟨periodYear s, periodMonth s, daysInMonth (periodYear s) (periodMonth s)⟩ := by
  by_cases hshape : periodShapeValid s = true
  · by_cases hm : 1 ≤ periodMonth s ∧ periodMonth s ≤ 12
    · have hmr : monthrangeDays (periodYear s) (periodMonth s) =
          some (daysInMonth (periodYear s) (periodMonth s)) := by
        unfold monthrangeDays
        rw [if_pos hm]
      by_cases hy : 1 ≤ periodYear s ∧ periodYear s ≤ 9999
      · have hdays := daysInMonth_pos (periodYear s) (periodMonth s) hm.1 hm.2
        have hpd : pyDate (periodYear s) (periodMonth s)
            (daysInMonth (periodYear s) (periodMonth s)) =
            some ⟨periodYear s, periodMonth s,
              daysInMonth (periodYear s) (periodMonth s)⟩ := by
          unfold pyDate
          rw [if_pos]
          omega
        simp only [processEndPeriod, hshape, if_true, hmr, hpd,
          PeriodOutcome.ok.injEq] at h
        exact h.symm
      · have hpd : pyDate (periodYear s) (periodMonth s)
            (daysInMonth (periodYear s) (periodMonth s)) = none := by
          unfold pyDate
          rw [if_neg]
          omega
        simp [processEndPeriod, hshape, hmr, hpd] at h
    · have hmr : monthrangeDays (periodYear s) (periodMonth s) = none := by
        unfold monthrangeDays
        rw [if_neg hm]
      simp [processEndPeriod, hshape, hmr] at h
  · simp only [Bool.not_eq_true] at hshape
    simp [processEndPeriod, hshape] at h

lemma dateLe_firstOfMonth (y m : Nat) (d : Date) (hd : 1 ≤ d.day) :
    dateLe ⟨y, m, 1⟩ d = true ↔ (y < d.year ∨ (y = d.year ∧ m ≤ d.month)) := by
  simp only [dateLe, Bool.or_eq_true, Bool.and_eq_true, decide_eq_true_eq,
    beq_iff_eq]
  omega

lemma dateLe_lastOfMonth (y m : Nat) (d : Date)
    (hd : d.day ≤ daysInMonth d.year d.month) :
    dateLe d ⟨y, m, daysInMonth y m⟩ = true ↔
      (d.year < y ∨ (d.year = y ∧ d.month ≤ m)) := by
  simp only [dateLe, Bool.or_eq_true, Bool.and_eq_true, decide_eq_true_eq,
    beq_iff_eq]
  constructor
  · rintro (h | ⟨h1, h2 | ⟨h2, _⟩⟩)
    · exact Or.inl h
    · exact Or.inr ⟨h1, Nat.le_of_lt h2⟩
    · exact Or.inr ⟨h1, Nat.le_of_eq h2⟩
  · rintro (h | ⟨h1, h2⟩)
    · exact Or.inl h
    · rcases Nat.lt_or_ge d.month m with hlt | hge
      · exact Or.inr ⟨h1, Or.inl hlt⟩
      · have hm : d.month = m := Nat.le_antisymm h2 hge
        refine Or.inr ⟨h1, Or.inr ⟨hm, ?_⟩⟩
        calc d.day ≤ daysInMonth d.year d.month := hd
          _ = daysInMonth y m := by rw [h1, hm]

/-- C7: the window applied by the period filters is inclusive on both ends —
`start_period` expands to the first day of its month and `end_period` to the
last calendar day of its month — so a valid date passes exactly when its
(year, month) lies between the two periods; February lengths respect leap
years (29 days in 2024, 28 in 2023). -/
theorem period_window_inclusive (sp ep : String) (sd ed d : Date)
    (hs : processStartPeriod sp = .ok sd) (he : processEndPeriod ep = .ok ed)
    (hd1 : 1 ≤ d.day) (hd2 : d.day ≤ daysInMonth d.year d.month) :
    ((startDatePasses (some sd) (some d) && endDatePasses (some ed) (some d)) = true ↔
      ((periodYear sp < d.year ∨ (periodYear sp = d.year ∧ periodMonth sp ≤ d.month)) ∧
        (d.year < periodYear ep ∨ (d.year = periodYear ep ∧ d.month ≤ periodMonth ep)))) ∧
    daysInMonth 2024 2 = 29 ∧ daysInMonth 2023 2 = 28 := by
  refine ⟨?_, by decide, by decide⟩
  rw [processStartPeriod_ok_inv sp sd hs, processEndPeriod_ok_inv ep ed he]
  simp only [startDatePasses, endDatePasses, Bool.and_eq_true]
  rw [show (dateLe ⟨periodYear sp, periodMonth sp, 1⟩ d = true) ↔ _ from
      dateLe_firstOfMonth _ _ d hd1,
    show (dateLe d ⟨periodYear ep, periodMonth ep,
        daysInMonth (periodYear ep) (periodMonth ep)⟩ = true) ↔ _ from
      dateLe_lastOfMonth _ _ d hd2]

/-- Witness for `period_window_inclusive`: with the window 2024-01 ..
2024-02, the leap day 2024-02-29 is admitted. -/
theorem period_window_inclusive_witness :
    (startDatePasses (some ⟨2024, 1, 1⟩) (some ⟨2024, 2, 29⟩) &&
      endDatePasses (some ⟨2024, 2, 29⟩) (some ⟨2024, 2, 29⟩)) = true ∧
    daysInMonth 2024 2 = 29 := by
  have h := period_window_inclusive "2024-01" "2024-02" ⟨2024, 1, 1⟩
    ⟨2024, 2, 29⟩ ⟨2024, 2, 29⟩ (by decide) (by decide) (by decide) (by decide)
  exact ⟨h.1.mpr (by decide), h.2.1⟩

/-- C8: the top-n response is sorted in descending order of `incident_count`,
has length at most `min n (number of distinct dimension values among the
filtered rows)`, and each entry's count is the exact number of filtered rows
carrying that value. -/
theorem topn_sorted_and_exact (db : IncidentDB) (cat : TopNCategory)
    (f : QueryFilters) (n : Nat) :
    List.Pairwise (fun a b : String × Nat => b.2 ≤ a.2) (getTopN db cat f n) ∧
    (getTopN db cat f n).length ≤
      min n (topNFilteredValues db cat f).dedup.length ∧
    ∀ p ∈ getTopN db cat f n,
      p.2 = (topNFilteredValues db cat f).count p.1 := by
  refine ⟨?_, ?_, ?_⟩
  · have hs := @List.sorted_mergeSort (String × Nat)
      (fun a b => decide (b.2 ≤ a.2))
      (fun a b c h1 h2 => by
        simp only [decide_eq_true_eq] at h1 h2 ⊢
        omega)
      (fun a b => by
        simp only [Bool.or_eq_true, decide_eq_true_eq]
        omega)
      (groupCounts (topNFilteredValues db cat f))
    have htake := hs.sublist (List.take_sublist n _)
    exact htake.imp fun h => by simpa using h
  · rw [getTopN, List.length_take, List.length_mergeSort]
    have : (groupCounts (topNFilteredValues db cat f)).length =
        (topNFilteredValues db cat f).dedup.length := by
      simp [groupCounts]
    omega
  · intro p hp
    have hmem : p ∈ groupCounts (topNFilteredValues db cat f) := by
      have := List.mem_of_mem_take hp
      rwa [List.mem_mergeSort] at this
    simp only [groupCounts, List.mem_map] at hmem
    obtain ⟨v, _, hv⟩ := hmem
    rw [← hv]

lemma find_groupRows (ps : List (Int × Nat)) (c : Int × Nat → Nat) (y : Int)
    (m : Nat) :
    (ps.map fun p => SeasonalRow.mk p.1 p.2 (c p)).find?
        (fun r => (r.year == y) && (r.month == m)) =
      if (y, m) ∈ ps then some ⟨y, m, c (y, m)⟩ else none := by
  induction ps with
  | nil => simp
  | cons p ps ih =>
    by_cases hp : p = (y, m)
    · subst hp
      simp [List.find?]
    · have hpred : ((p.1 == y) && (p.2 == m)) = false := by
        rcases p with ⟨py, pm⟩
        simp only [Bool.and_eq_false_iff, beq_eq_false_iff_ne, ne_eq]
        by_cases hy : py = y
        · subst hy
          right
          intro hmm
          exact hp (by rw [hmm])
        · exact Or.inl hy
      rw [List.map_cons, List.find?_cons_of_neg _ (by simpa using hpred), ih]
      have : ((y, m) ∈ p :: ps) ↔ ((y, m) ∈ ps) := by
        simp [List.mem_cons]
        intro h
        exact absurd h.symm hp
      simp only [this]

lemma dataMapGet_count (ds : List Date) (y : Int) (m : Nat) :
    dataMapGet (seasonalGroupRowsOf ds) y m =
      ds.countP fun d => ((d.year : Int) == y) && (d.month == m) := by
  unfold dataMapGet seasonalGroupRowsOf
  rw [find_groupRows]
  by_cases hm : (y, m) ∈ (ds.map fun d => ((d.year : Int), d.month)).dedup
  · rw [if_pos hm]
  · rw [if_neg hm]
    symm
    rw [List.countP_eq_zero]
    intro d hd hpred
    apply hm
    rw [List.mem_dedup]
    simp only [Bool.and_eq_true, beq_iff_eq] at hpred
    exact List.mem_map.mpr ⟨d, hd, by rw [hpred.1, hpred.2]⟩

lemma length_flatMap_const {α β : Type} (l : List α) (f : α → List β) (k : Nat)
    (h : ∀ a, (f a).length = k) : (l.flatMap f).length = k * l.length := by
  induction l with
  | nil => simp
  | cons x xs ih =>
    simp only [List.flatMap_cons, List.length_append, ih, h, List.length_cons]
    ring

lemma intRangeIncl_length (a b : Int) :
    (intRangeIncl a b).length = (b + 1 - a).toNat := by
  unfold intRangeIncl
  rw [List.length_map, List.length_range]

lemma mem_intRangeIncl (a b y : Int) (h1 : a ≤ y) (h2 : y ≤ b) :
    y ∈ intRangeIncl a b := by
  unfold intRangeIncl
  rw [List.mem_map]
  refine ⟨(y - a).toNat, ?_, by rw [Int.ofNat_eq_natCast]; omega⟩
  rw [List.mem_range]
  omega

/-- C5: with both years supplied and `start_year ≤ end_year`, the seasonal
distribution is the dense grid with exactly `12 × (end_year - start_year + 1)`
entries, and for every (year, month) of the range it contains the entry whose
`v` is the exact count of matching incidents (0 when none match). -/
theorem seasonal_dense_grid (db : IncidentDB) (a b : Int) (hab : a ≤ b) :
    (getSeasonalDistribution db (some a) (some b)).length =
      12 * (b - a + 1).toNat ∧
    ∀ y m, a ≤ y → y ≤ b → 1 ≤ m → m ≤ 12 →
      (⟨monthAbbr m, toString y,
        (seasonalFilteredDates db (some a) (some b)).countP
          fun d => ((d.year : Int) == y) && (d.month == m)⟩ : SeasonalEntry) ∈
        getSeasonalDistribution db (some a) (some b) := by
  have hexpand : getSeasonalDistribution db (some a) (some b) =
      (intRangeIncl a b).flatMap fun yr =>
        (List.range 12).map fun i =>
          ⟨monthAbbr (i + 1), toString yr,
            dataMapGet (seasonalGroupRows db (some a) (some b)) yr (i + 1)⟩ := by
    rfl
  constructor
  · rw [hexpand, length_flatMap_const _ _ 12 (fun yr => by
      rw [List.length_map, List.length_range]), intRangeIncl_length]
    congr 1
    omega
  · intro y m hy1 hy2 hm1 hm2
    rw [hexpand, List.mem_flatMap]
    refine ⟨y, mem_intRangeIncl a b y hy1 hy2, ?_⟩
    rw [List.mem_map]
    refine ⟨m - 1, by rw [List.mem_range]; omega, ?_⟩
    have hm' : m - 1 + 1 = m := by omega
    rw [hm', seasonalGroupRows, dataMapGet_count]

/-- Witness for `seasonal_dense_grid` at an empty store over the single year
2024: twelve zero-filled entries, one of which is February 2024 with count 0. -/
theorem seasonal_dense_grid_witness :
    (getSeasonalDistribution ⟨[], [], [], []⟩ (some 2024) (some 2024)).length =
      12 * ((2024 : Int) - 2024 + 1).toNat ∧
    (⟨"Feb", "2024", 0⟩ : SeasonalEntry) ∈
      getSeasonalDistribution ⟨[], [], [], []⟩ (some 2024) (some 2024) := by
  have h := seasonal_dense_grid ⟨[], [], [], []⟩ 2024 2024 (by decide)
  exact ⟨h.1, h.2 2024 2 (by decide) (by decide) (by decide) (by decide)⟩

/-- C6 counterexample: on an empty store (so no row matches any filter) with
both years supplied, the seasonal endpoint returns the twelve-entry
zero-filled grid, not the empty list the claim requires. -/
theorem seasonal_counterexample :
    seasonalFilteredDates ⟨[], [], [], []⟩ (some 2020) (some 2020) = [] ∧
    getSeasonalDistribution ⟨[], [], [], []⟩ (some 2020) (some 2020) ≠ [] := by
  refine ⟨rfl, ?_⟩
  intro h
  have hl := congrArg List.length h
  rw [List.length_nil] at hl
  exact absurd hl (by decide)

/-- C6 amended: when no incident row matches the filter, the seasonal
endpoint returns the empty list provided at least one of `start_year` /
`end_year` was omitted (when both are supplied it returns the dense
zero-filled grid instead). -/
theorem seasonal_no_match_empty_amended (db : IncidentDB) (sy ey : Option Int)
    (hempty : seasonalFilteredDates db sy ey = [])
    (homit : sy = none ∨ ey = none) :
    getSeasonalDistribution db sy ey = [] := by
  unfold getSeasonalDistribution seasonalGroupRows
  rw [hempty]
  rcases homit with h | h
  · subst h
    simp [seasonalGroupRowsOf]
  · subst h
    simp only [seasonalGroupRowsOf, List.map_nil, List.dedup_nil, List.min?_nil,
      List.max?_nil]
    cases sy <;> rfl

/-- Witness for `seasonal_no_match_empty_amended` at an empty store with both
years omitted. -/
theorem seasonal_no_match_empty_amended_witness :
    getSeasonalDistribution ⟨[], [], [], []⟩ none none = [] :=
  seasonal_no_match_empty_amended ⟨[], [], [], []⟩ none none rfl (Or.inl rfl)

/-- Witness for `topn_sorted_and_exact`: on a one-incident store the single
top-n entry's count is the exact number of filtered rows with that value. -/
theorem topn_sorted_and_exact_witness :
    (("Test Operator", 1) : String × Nat).2 =
      (topNFilteredValues
        ⟨[], [⟨some "asrs_1", none, none, none, none, none, none,
          some "Test Operator"⟩], [], []⟩ .operator noFilters).count
        "Test Operator" :=
  (topn_sorted_and_exact
      ⟨[], [⟨some "asrs_1", none, none, none, none, none, none,
        some "Test Operator"⟩], [], []⟩ .operator noFilters 5).2.2
    ("Test Operator", 1)
    (by
      show ("Test Operator", 1) ∈
        ((groupCounts (topNFilteredValues _ .operator noFilters)).mergeSort
          fun a b => decide (b.2 ≤ a.2)).take 5
      have hg : groupCounts (topNFilteredValues
          ⟨[], [⟨some "asrs_1", none, none, none, none, none, none,
            some "Test Operator"⟩], [], []⟩ .operator noFilters) =
          [("Test Operator", 1)] := rfl
      rw [hg, List.mergeSort_singleton]
      decide)

end DataApi
